import Mathlib

/-
Verification of the request-validation and dispatch core of the STRIDE GPT
MCP server (a JSON-RPC endpoint serving static threat-modeling content).

The embedding models parsed JSON values as the inductive type `Json`
(Python dicts become ordered association lists, mirroring Python 3.7+
insertion order; JSON numbers are modelled as integers, which is adequate
here because no verified property depends on numeric values).  Ambient
nondeterminism (the uuid module consulted by the error sanitizer) is made
explicit as a `World` parameter; functions translated from Python that can
raise return `Except PyErr`.

Sources embedded:
  - src/api/index.py   (namespace `Api`): payload limits, error codes,
    `validate_json_complexity`, `sanitize_error`, the eight tool handlers
    and `handle_mcp_request`.
  - src/server/validation.py (namespace `Server`): the second copy of
    `validate_json_complexity` (which, unlike the Api copy, has no
    object-key-length check).
  - src/server/errors.py (namespace `Server`): `sanitize_error`.
-/

set_option maxHeartbeats 4000000
set_option maxRecDepth 10000

/-- Parsed JSON values (the result of Python json.loads).  Python dicts are
ordered association lists; numbers are modelled as integers. -/
inductive Json where
  | null : Json
  | bool (b : Bool) : Json
  | num (n : Int) : Json
  | str (s : String) : Json
  | arr (xs : List Json) : Json
  | obj (kvs : List (String × Json)) : Json

mutual

/-- Structural equality of JSON values (Python == restricted to parsed
JSON; the Python peculiarity that True == 1 is never exercised by the code
under verification, which only compares against string literals). -/
def Json.beq : Json → Json → Bool
  | .null, .null => true
  | .bool a, .bool b => a == b
  | .num a, .num b => a == b
  | .str a, .str b => a == b
  | .arr a, .arr b => Json.beqList a b
  | .obj a, .obj b => Json.beqKVs a b
  | _, _ => false

def Json.beqList : List Json → List Json → Bool
  | [], [] => true
  | a :: as, b :: bs => Json.beq a b && Json.beqList as bs
  | _, _ => false

def Json.beqKVs : List (String × Json) → List (String × Json) → Bool
  | [], [] => true
  | (k, v) :: as, (l, u) :: bs => k == l && Json.beq v u && Json.beqKVs as bs
  | _, _ => false

end

instance : BEq Json := ⟨Json.beq⟩

/-- Python `d[k]` lookup on an (ordered, duplicate-free) dict. -/
def jlookup (kvs : List (String × Json)) (k : String) (dflt : Json) : Json :=
  match kvs.find? (fun kv => kv.1 == k) with
  | some kv => kv.2
  | none => dflt

/-- Python `body.get(k, dflt)` on a dict known to be a dict. -/
def dget (body : List (String × Json)) (k : String) (dflt : Json) : Json :=
  jlookup body k dflt

/-- Key membership test on a JSON object. -/
def Json.hasKey : Json → String → Bool
  | .obj kvs, k => kvs.any (fun kv => kv.1 == k)
  | _, _ => false

/-- Lookup of a key inside a JSON object, `none` if absent or not an object. -/
def lookupIn (j : Json) (k : String) : Option Json :=
  match j with
  | .obj kvs => (kvs.find? (fun kv => kv.1 == k)).map (fun kv => kv.2)
  | _ => none

/-- Python `x == "lit"` for a parsed JSON value `x` and a string literal:
true exactly when `x` is that string. -/
def jEqStr : Json → String → Bool
  | .str s, t => s == t
  | _, _ => false

/-- Exceptions that the embedded Python fragments can raise. -/
inductive PyErr where
  | attributeError : PyErr
  | typeError : PyErr

/-- A Python exception object as seen by the sanitizer: its type name and
its str() message. -/
structure PyExc where
  typeName : String
  msg : String

/-- Ambient nondeterminism available to the process: the string produced by
uuid.uuid4() and a clock.  The Python tool handlers never consult either;
making the parameter explicit lets determinism be stated as a theorem. -/
structure World where
  uuidStr : String
  clock : Nat

namespace Api

/-- ERROR_CODES table of src/api/index.py (lines 16-22). -/
def ERROR_CODES : List (String × Int) :=
  [("INVALID_PARAMETER", -32603),
   ("TOOL_EXECUTION_FAILED", -32604),
   ("INTERNAL_ERROR", -32603),
   ("PAYLOAD_TOO_LARGE", -32600),
   ("PAYLOAD_TOO_COMPLEX", -32600)]

/-- ERROR_CODES[k]. -/
def errCode (k : String) : Int :=
  match ERROR_CODES.find? (fun kv => kv.1 == k) with
  | some kv => kv.2
  | none => 0

/-- PAYLOAD_LIMITS table of src/api/index.py (lines 26-32). -/
def PAYLOAD_LIMITS : List (String × Nat) :=
  [("MAX_PAYLOAD_SIZE", 5242880),
   ("MAX_JSON_DEPTH", 20),
   ("MAX_OBJECT_KEYS", 500),
   ("MAX_ARRAY_LENGTH", 2000),
   ("MAX_STRING_LENGTH", 500000)]

/-- PAYLOAD_LIMITS[k]. -/
def plim (k : String) : Nat :=
  match PAYLOAD_LIMITS.find? (fun kv => kv.1 == k) with
  | some kv => kv.2
  | none => 0

/-- Result record of validate_json_complexity: a valid flag and an
optional error message. -/
structure VResult where
  valid : Bool
  error : Option String

mutual

/-- validate_json_complexity of src/api/index.py (lines 67-135): recursive
complexity guard over a parsed JSON value.  The per-item loops of the
Python function are the two sibling functions below. -/
def validate_json_complexity (data : Json) (current_depth : Nat) : VResult :=
  if current_depth > plim "MAX_JSON_DEPTH" then
    ⟨false, some ("JSON nesting depth exceeds maximum of " ++
      toString (plim "MAX_JSON_DEPTH"))⟩
  else
    match data with
    | .obj kvs =>
      if kvs.length > plim "MAX_OBJECT_KEYS" then
        ⟨false, some ("Object contains " ++ toString kvs.length ++
          " keys, exceeds maximum of " ++ toString (plim "MAX_OBJECT_KEYS"))⟩
      else validateItems kvs current_depth
    | .arr xs =>
      if xs.length > plim "MAX_ARRAY_LENGTH" then
        ⟨false, some ("Array length " ++ toString xs.length ++
          " exceeds maximum of " ++ toString (plim "MAX_ARRAY_LENGTH"))⟩
      else validateElems xs current_depth
    | .str s =>
      if s.length > plim "MAX_STRING_LENGTH" then
        ⟨false, some ("String length " ++ toString s.length ++
          " exceeds maximum of " ++ toString (plim "MAX_STRING_LENGTH"))⟩
      else ⟨true, none⟩
    | _ => ⟨true, none⟩

/-- The `for key, value in data.items()` loop of the Api copy: checks each
key's length, recurses into each value at depth+1, and returns the first
failing result. -/
def validateItems (kvs : List (String × Json)) (current_depth : Nat) : VResult :=
  match kvs with
  | [] => ⟨true, none⟩
  | (key, value) :: rest =>
    if key.length > plim "MAX_STRING_LENGTH" then
      ⟨false, some ("Object key length exceeds maximum of " ++
        toString (plim "MAX_STRING_LENGTH"))⟩
    else
      let r := validate_json_complexity value (current_depth + 1)
      if r.valid then validateItems rest current_depth else r

/-- The `for item in data` loop over array elements. -/
def validateElems (xs : List Json) (current_depth : Nat) : VResult :=
  match xs with
  | [] => ⟨true, none⟩
  | item :: rest =>
    let r := validate_json_complexity item (current_depth + 1)
    if r.valid then validateElems rest current_depth else r

end

/-- sanitize_error of src/api/index.py (lines 37-65).  The Python function
additionally prints the exception's type, message and stack trace to
stderr (a server-side log, dropped by this model) and derives error_id
from str(uuid.uuid4())[:8]; the uuid draw is the World parameter. -/
def sanitize_error (_error : PyExc) (_error_context : String) (w : World) :
    String × String :=
  let error_id : String := ⟨w.uuidStr.data.take 8⟩
  (error_id, "An internal error occurred. Error ID: " ++ error_id)

end Api

namespace Server

/-- Modelled from the spec: src/server/constants.py is not among the
sources (only its importers are); the spec's payload-limits table gives
MAX_PAYLOAD_SIZE 5242880, MAX_JSON_DEPTH 20, MAX_OBJECT_KEYS 500,
MAX_ARRAY_LENGTH 2000 and MAX_STRING_LENGTH 500000. -/
def PAYLOAD_LIMITS : List (String × Nat) :=
  [("MAX_PAYLOAD_SIZE", 5242880),
   ("MAX_JSON_DEPTH", 20),
   ("MAX_OBJECT_KEYS", 500),
   ("MAX_ARRAY_LENGTH", 2000),
   ("MAX_STRING_LENGTH", 500000)]

/-- PAYLOAD_LIMITS[k]. -/
def plim (k : String) : Nat :=
  match PAYLOAD_LIMITS.find? (fun kv => kv.1 == k) with
  | some kv => kv.2
  | none => 0

mutual

/-- validate_json_complexity of src/server/validation.py (lines 3-27).
Unlike the Api copy it performs no key-length check on object keys. -/
def validate_json_complexity (data : Json) (depth : Nat) : Api.VResult :=
  if depth > plim "MAX_JSON_DEPTH" then
    ⟨false, some "JSON depth exceeded"⟩
  else
    match data with
    | .obj kvs =>
      if kvs.length > plim "MAX_OBJECT_KEYS" then
        ⟨false, some "Too many object keys"⟩
      else validateValues kvs depth
    | .arr xs =>
      if xs.length > plim "MAX_ARRAY_LENGTH" then
        ⟨false, some "Array too large"⟩
      else validateList xs depth
    | .str s =>
      if s.length > plim "MAX_STRING_LENGTH" then
        ⟨false, some "String too long"⟩
      else ⟨true, none⟩
    | _ => ⟨true, none⟩

/-- The `for v in data.values()` loop of the Server copy: recurses into
each value at depth+1 only (keys are never inspected). -/
def validateValues (kvs : List (String × Json)) (depth : Nat) : Api.VResult :=
  match kvs with
  | [] => ⟨true, none⟩
  | (_, value) :: rest =>
    let r := validate_json_complexity value (depth + 1)
    if r.valid then validateValues rest depth else r

/-- The `for i in data` loop over array elements. -/
def validateList (xs : List Json) (depth : Nat) : Api.VResult :=
  match xs with
  | [] => ⟨true, none⟩
  | item :: rest =>
    let r := validate_json_complexity item (depth + 1)
    if r.valid then validateList rest depth else r

end

/-- sanitize_error of src/server/errors.py (lines 6-12); identical client
behaviour to the Api copy (stderr logging dropped by the model). -/
def sanitize_error (_error : PyExc) (_context : String) (w : World) :
    String × String :=
  let error_id : String := ⟨w.uuidStr.data.take 8⟩
  (error_id, "An internal error occurred. Error ID: " ++ error_id)

end Server

/- Specification-side predicates for the payload-guard claims. -/

mutual

/-- Maximum nesting depth of a JSON value: the depth of its deepest node,
with the value itself at depth 0 (so scalars and empty containers have
depth 0). -/
def jdepth : Json → Nat
  | .obj kvs => jdepthKVs kvs
  | .arr xs => jdepthList xs
  | _ => 0

def jdepthKVs : List (String × Json) → Nat
  | [] => 0
  | (_, v) :: rest => max (jdepth v + 1) (jdepthKVs rest)

def jdepthList : List Json → Nat
  | [] => 0
  | x :: rest => max (jdepth x + 1) (jdepthList rest)

end

mutual

/-- Some node of the value violates a size limit: an object with more than
500 keys, an object key longer than 500000, an array longer than 2000, or
a string longer than 500000. -/
def structViol : Json → Bool
  | .obj kvs => decide (kvs.length > 500) || structViolKVs kvs
  | .arr xs => decide (xs.length > 2000) || structViolList xs
  | .str s => decide (s.length > 500000)
  | _ => false

def structViolKVs : List (String × Json) → Bool
  | [] => false
  | (key, v) :: rest =>
    decide (key.length > 500000) || structViol v || structViolKVs rest

def structViolList : List Json → Bool
  | [] => false
  | x :: rest => structViol x || structViolList rest

end

mutual

/-- Like structViol but without the key-length limit (strings, array
lengths and key counts only). -/
def structViolNoKey : Json → Bool
  | .obj kvs => decide (kvs.length > 500) || structViolNoKeyKVs kvs
  | .arr xs => decide (xs.length > 2000) || structViolNoKeyList xs
  | .str s => decide (s.length > 500000)
  | _ => false

def structViolNoKeyKVs : List (String × Json) → Bool
  | [] => false
  | (_, v) :: rest => structViolNoKey v || structViolNoKeyKVs rest

def structViolNoKeyList : List Json → Bool
  | [] => false
  | x :: rest => structViolNoKey x || structViolNoKeyList rest

end

/-- The claimed payload-guard violation predicate: nesting depth above 20,
or some structural size violation (key count, key length, array length,
string length). -/
def violatesLimits (v : Json) : Bool :=
  decide (jdepth v > 20) || structViol v

/-- The violation predicate actually enforced by the Server copy: as
violatesLimits but with object-key lengths exempt. -/
def violatesLimitsNoKey (v : Json) : Bool :=
  decide (jdepth v > 20) || structViolNoKey v

/-- needle occurs contiguously inside hay. -/
def strContains (needle hay : String) : Prop :=
  ∃ s t : String, s ++ needle ++ t = hay

example : (Api.validate_json_complexity (.obj [("a", .num 1)]) 0).valid = true := by decide

example : (Api.validate_json_complexity (.str "hi") 21).valid = false := by decide

example : (Server.validate_json_complexity (.arr [.null]) 0).valid = true := by decide

/-- A 500001-character object key (one character over MAX_STRING_LENGTH). -/
def c1key : String := String.mk (List.replicate 500001 'k')

/-- A second over-long object key, for the C2 counterexample. -/
def c2key : String := String.mk (List.replicate 500001 'q')

/-- The sixteen lowercase hexadecimal digits. -/
def hexDigits : List Char := "0123456789abcdef".data

/-- Every character of the string is a lowercase hexadecimal digit. -/
def isHexStr (s : String) : Bool := s.data.all (fun c => hexDigits.contains c)

/-- A fixed uuid draw used by concrete instantiations. -/
def w0 : World := ⟨"01234567-89ab-cdef-0123-456789abcdef", 0⟩



/- Python-semantics helpers for the tool handlers and the dispatcher. -/

/-- Python `args.get(k, dflt)`: raises AttributeError unless args is a
dict. -/
def pyGet (args : Json) (k : String) (dflt : Json) : Except PyErr Json :=
  match args with
  | .obj kvs => .ok (jlookup kvs k dflt)
  | _ => .error .attributeError

/-- needle is a prefix of hay (character lists). -/
def listIsPre : List Char → List Char → Bool
  | [], _ => true
  | _ :: _, [] => false
  | a :: as, b :: bs => a == b && listIsPre as bs

/-- needle occurs contiguously in hay (character lists). -/
def listIsSub (n : List Char) : List Char → Bool
  | [] => listIsPre n []
  | b :: bs => listIsPre n (b :: bs) || listIsSub n bs

/-- Python `needle in container` for a string needle: list membership,
substring test, or dict-key membership; TypeError on scalars. -/
def pyIn (needle : String) (container : Json) : Except PyErr Bool :=
  match container with
  | .arr xs => .ok (xs.contains (.str needle))
  | .str s => .ok (listIsSub needle.data s.data)
  | .obj kvs => .ok (kvs.any (fun kv => kv.1 == needle))
  | _ => .error .typeError

/-- Python `x.lower()`: AttributeError unless x is a string. -/
def pyLower (j : Json) : Except PyErr String :=
  match j with
  | .str s => .ok s.toLower
  | _ => .error .attributeError

mutual

/-- Python str() of a parsed JSON value (used only inside error-message
strings; repr quoting of nested strings uses single quotes, Python's
common case). -/
def pyStr : Json → String
  | .null => "None"
  | .bool b => if b then "True" else "False"
  | .num n => toString n
  | .str s => s
  | .arr xs => "[" ++ pyStrList xs ++ "]"
  | .obj kvs => "\x7b" ++ pyStrKVs kvs ++ "\x7d"

def pyRepr : Json → String
  | .null => "None"
  | .bool b => if b then "True" else "False"
  | .num n => toString n
  | .str s => "\x27" ++ s ++ "\x27"
  | .arr xs => "[" ++ pyStrList xs ++ "]"
  | .obj kvs => "\x7b" ++ pyStrKVs kvs ++ "\x7d"

def pyStrList : List Json → String
  | [] => ""
  | [x] => pyRepr x
  | x :: rest => pyRepr x ++ ", " ++ pyStrList rest

def pyStrKVs : List (String × Json) → String
  | [] => ""
  | [(k, v)] => "\x27" ++ k ++ "\x27: " ++ pyRepr v
  | (k, v) :: rest => "\x27" ++ k ++ "\x27: " ++ pyRepr v ++ ", " ++ pyStrKVs rest

end

/-- One hexadecimal digit. -/
def hexDigit (n : Nat) : Char :=
  if n < 10 then Char.ofNat (48 + n) else Char.ofNat (87 + n)

/-- Four-digit lowercase hexadecimal rendering (for \uXXXX escapes). -/
def hex4 (n : Nat) : String :=
  String.mk [hexDigit (n / 4096 % 16), hexDigit (n / 256 % 16),
    hexDigit (n / 16 % 16), hexDigit (n % 16)]

/-- The JSON string escaping of Python json.dumps (ensure_ascii default:
characters outside printable ASCII become \uXXXX). -/
def escapeJsonChar (c : Char) : String :=
  if c = '"' then "\\\"" else
  if c = '\\' then "\\\\" else
  if c = '\n' then "\\n" else
  if c = '\t' then "\\t" else
  if c = '\r' then "\\r" else
  if c.toNat < 32 ∨ c.toNat > 126 then "\\u" ++ hex4 c.toNat else
  String.mk [c]

/-- Escape a whole string. -/
def escapeJson (s : String) : String :=
  s.data.foldl (fun acc c => acc ++ escapeJsonChar c) ""

/-- n spaces. -/
def indentSpaces (n : Nat) : String := String.mk (List.replicate n ' ')

mutual

/-- Python json.dumps(value, indent=2) at a given indentation level. -/
def dumpsAt (level : Nat) : Json → String
  | .null => "null"
  | .bool b => if b then "true" else "false"
  | .num n => toString n
  | .str s => "\"" ++ escapeJson s ++ "\""
  | .arr [] => "[]"
  | .arr (x :: xs) =>
    "[\n" ++ indentSpaces ((level + 1) * 2) ++
      dumpsList (level + 1) (x :: xs) ++ "\n" ++ indentSpaces (level * 2) ++ "]"
  | .obj [] => "\x7b\x7d"
  | .obj (kv :: kvs) =>
    "\x7b\n" ++ indentSpaces ((level + 1) * 2) ++
      dumpsKVs (level + 1) (kv :: kvs) ++ "\n" ++ indentSpaces (level * 2) ++ "\x7d"

def dumpsList (level : Nat) : List Json → String
  | [] => ""
  | [x] => dumpsAt level x
  | x :: y :: ys =>
    dumpsAt level x ++ ",\n" ++ indentSpaces (level * 2) ++ dumpsList level (y :: ys)

def dumpsKVs (level : Nat) : List (String × Json) → String
  | [] => ""
  | [(k, v)] => "\"" ++ escapeJson k ++ "\": " ++ dumpsAt level v
  | (k, v) :: l :: ls =>
    "\"" ++ escapeJson k ++ "\": " ++ dumpsAt level v ++ ",\n" ++
      indentSpaces (level * 2) ++ dumpsKVs level (l :: ls)

end

/-- Python json.dumps(value, indent=2). -/
def dumps (j : Json) : String := dumpsAt 0 j


namespace Api

/-- get_stride_threat_framework of src/api/index.py (lines 138-279).  The
World parameter carries the ambient uuid/clock sources, which the Python
handler never consults; it raises AttributeError when args is not a dict
(args.get on a non-dict). -/
def get_stride_threat_framework (w : World) (args : Json) : Except PyErr Json := do
  let app_description ← pyGet args "app_description" (.str "")
  let app_type ← pyGet args "app_type" (.str "Web Application")
  let auth_methods ← pyGet args "authentication_methods" (.arr [.str "Username/Password"])
  let internet_facing ← pyGet args "internet_facing" (.bool true)
  let sensitive_data ← pyGet args "sensitive_data_types" (.arr [.str "User Data"])
  pure (.obj [("stride_framework", .obj [("description", .str "STRIDE threat modeling methodology for systematic security analysis"),
      ("categories", .obj [("S", .obj [("name", .str "Spoofing"),
          ("description", .str "Impersonating something or someone else"),
          ("threat_examples", .arr [.str "Authentication bypass",
            .str "Identity theft/impersonation",
            .str "Credential compromise",
            .str "Session hijacking",
            .str "Certificate/token forgery"])]),
        ("T", .obj [("name", .str "Tampering"),
          ("description", .str "Modifying data or code"),
          ("threat_examples", .arr [.str "Data manipulation/corruption",
            .str "Code injection attacks",
            .str "Configuration modification",
            .str "Message/request tampering",
            .str "File/database alteration"])]),
        ("R", .obj [("name", .str "Repudiation"),
          ("description", .str "Claiming to have not performed an action"),
          ("threat_examples", .arr [.str "Insufficient audit logging",
            .str "Log tampering/deletion",
            .str "Non-repudiation failures",
            .str "Transaction denial",
            .str "Accountability gaps"])]),
        ("I", .obj [("name", .str "Information Disclosure"),
          ("description", .str "Exposing information to unauthorized individuals"),
          ("threat_examples", .arr [.str "Unauthorized data access",
            .str "Sensitive information leakage",
            .str "Privacy violations",
            .str "Reconnaissance/enumeration",
            .str "Metadata exposure"])]),
        ("D", .obj [("name", .str "Denial of Service"),
          ("description", .str "Denying or degrading service availability"),
          ("threat_examples", .arr [.str "Resource exhaustion",
            .str "Service flooding/overload",
            .str "Infrastructure disruption",
            .str "Performance degradation",
            .str "Availability attacks"])]),
        ("E", .obj [("name", .str "Elevation of Privilege"),
          ("description", .str "Gaining capabilities without proper authorization"),
          ("threat_examples", .arr [.str "Authorization bypass",
            .str "Privilege escalation",
            .str "Access control violations",
            .str "Administrative compromise",
            .str "Permission boundary failures"])])]),
      ("extended_threat_domains", .obj [("traditional_web", .arr [.str "SQL injection, XSS, CSRF",
          .str "Authentication/authorization flaws",
          .str "Session management issues",
          .str "Input validation failures"]),
        ("cloud_infrastructure", .arr [.str "Misconfigured services/permissions",
          .str "Container/orchestration vulnerabilities",
          .str "API gateway security issues",
          .str "Serverless function attacks"]),
        ("ai_ml_systems", .arr [.str "Prompt injection attacks",
          .str "Training data poisoning",
          .str "Model extraction/inversion",
          .str "Adversarial examples",
          .str "Excessive AI agency",
          .str "AI decision manipulation"]),
        ("iot_embedded", .arr [.str "Firmware tampering",
          .str "Device impersonation",
          .str "Communication protocol attacks",
          .str "Physical access threats"]),
        ("mobile_applications", .arr [.str "App tampering/repackaging",
          .str "Device-specific attacks",
          .str "Platform integration issues",
          .str "Local data storage threats"]),
        ("api_microservices", .arr [.str "Service-to-service authentication",
          .str "API abuse/rate limiting",
          .str "Inter-service communication",
          .str "Service mesh security"])])]),
    ("application_context", .obj [("app_description", app_description),
      ("app_type", app_type),
      ("authentication_methods", auth_methods),
      ("internet_facing", internet_facing),
      ("sensitive_data_types", sensitive_data)]),
    ("analysis_guidance", .str "Use this STRIDE framework to systematically identify specific threats for the described application. Consider which extended threat domains are relevant based on the application\x27s architecture, technology stack, and deployment model. The LLM client should analyze the application context and select appropriate threats from each STRIDE category and relevant threat domain."),
    ("next_steps", .obj [("recommended_workflow", .arr [.str "1. Analyze application using STRIDE framework to identify specific threats",
        .str "2. Document each threat with ID, category, and description",
        .str "3. Call calculate_threat_risk_scores with your threat list",
        .str "4. Call validate_threat_coverage to check completeness",
        .str "5. Generate mitigations for high-priority threats"]),
      ("optional_tools", .arr [.str "create_threat_attack_trees - Visualize attack paths",
        .str "generate_security_tests - Create test cases"])])])

/-- generate_threat_mitigations of src/api/index.py (lines 281-316). -/
def generate_threat_mitigations (w : World) (args : Json) : Except PyErr Json := do
  let threats ← pyGet args "threats" (.arr [])
  let priority_filter ← pyGet args "priority_filter" (.str "all")
  pure (.obj [("mitigation_framework", .obj [("description", .str "Structured approach to generate threat mitigations"),
      ("categories", .obj [("Preventive", .str "Controls that prevent threats from occurring"),
        ("Detective", .str "Controls that detect when threats occur"),
        ("Corrective", .str "Controls that respond to and recover from threats")]),
      ("difficulty_levels", .obj [("Easy", .str "Can be implemented quickly with existing tools/processes"),
        ("Medium", .str "Requires moderate effort and possibly new tools"),
        ("Hard", .str "Requires significant resources, time, or architectural changes")]),
      ("priority_levels", .obj [("High", .str "Critical security controls that should be implemented immediately"),
        ("Medium", .str "Important controls that should be planned for near-term implementation"),
        ("Low", .str "Nice-to-have controls for comprehensive defense")])]),
    ("threat_context", threats),
    ("priority_filter", priority_filter),
    ("analysis_guidance", .str "For each threat provided, generate specific, actionable mitigation strategies. Consider defense-in-depth principles and prioritize based on risk level and implementation difficulty."),
    ("next_steps", .obj [("after_mitigations", .arr [.str "1. Call generate_security_tests to create test cases",
        .str "2. Call create_threat_attack_trees to visualize attack paths",
        .str "3. Call generate_threat_report to create deliverable document",
        .str "4. Implement high-priority preventive controls first"])])])

/-- calculate_threat_risk_scores of src/api/index.py (lines 318-545). -/
def calculate_threat_risk_scores (w : World) (args : Json) : Except PyErr Json := do
  let threats ← pyGet args "threats" (.arr [])
  let scoring_guidance ← pyGet args "scoring_guidance" (.obj [])
  pure (.obj [("dread_framework", .obj [("description", .str "DREAD risk assessment methodology for threat prioritization"),
      ("scoring_criteria", .obj [("Damage", .obj [("description", .str "How bad would an attack be?"),
          ("scale", .str "1-10 (1=minimal damage, 10=complete system compromise)"),
          ("factors", .arr [.str "Financial impact",
            .str "Data sensitivity",
            .str "Regulatory consequences",
            .str "Business continuity"])]),
        ("Reproducibility", .obj [("description", .str "How easy is it to reproduce the attack?"),
          ("scale", .str "1-10 (1=very difficult, 10=very easy)"),
          ("factors", .arr [.str "Attack complexity", .str "Required tools/skills", .str "Environmental dependencies"])]),
        ("Exploitability", .obj [("description", .str "How much work is it to launch the attack?"),
          ("scale", .str "1-10 (1=very hard, 10=very easy)"),
          ("factors", .arr [.str "Technical skill required", .str "Time investment", .str "Resource requirements"])]),
        ("Affected_Users", .obj [("description", .str "How many users would be impacted?"),
          ("scale", .str "1-10 (1=few users, 10=all users)"),
          ("factors", .arr [.str "User base size", .str "Impact scope", .str "Cascading effects"])]),
        ("Discoverability", .obj [("description", .str "How easy is it to discover the threat?"),
          ("scale", .str "1-10 (1=very hard, 10=very easy)"),
          ("factors", .arr [.str "Visibility of attack surface", .str "Documentation availability", .str "Common vulnerability"])])]),
      ("risk_levels", .obj [("Critical", .str "40-50 points - Immediate action required"),
        ("High", .str "30-39 points - High priority for remediation"),
        ("Medium", .str "20-29 points - Medium priority"),
        ("Low", .str "5-19 points - Low priority but should be addressed")])]),
    ("calibration_guidance", .obj [("damage", .obj [("1-3", .str "Minimal: Affects single user, non-critical functionality, easily recoverable"),
        ("4-6", .str "Moderate: Affects multiple users, important functionality, recovery required"),
        ("7-9", .str "High: Affects most users, critical functionality, difficult recovery"),
        ("10", .str "Catastrophic: Complete system compromise, all users affected, irrecoverable")]),
      ("reproducibility", .obj [("1-3", .str "Difficult: Requires specific timing, race conditions, or rare circumstances"),
        ("4-6", .str "Moderate: Requires specific configuration or user actions"),
        ("7-9", .str "Easy: Reproducible with standard tools and documentation"),
        ("10", .str "Always: 100% reproducible, deterministic")]),
      ("exploitability", .obj [("1-3", .str "Expert: Requires deep expertise, custom tools, significant time investment"),
        ("4-6", .str "Intermediate: Requires moderate skill, some tool customization"),
        ("7-9", .str "Basic: Standard tools and scripts available, minimal expertise needed"),
        ("10", .str "Trivial: No technical skill required, fully automated tools exist")]),
      ("affected_users", .obj [("1-3", .str "Few: < 10% of users, isolated impact"),
        ("4-6", .str "Some: 10-50% of users, limited scope"),
        ("7-9", .str "Most: 50-90% of users, widespread impact"),
        ("10", .str "All: 100% of users affected, system-wide impact")]),
      ("discoverability", .obj [("1-3", .str "Hidden: Requires source code review, insider knowledge, or deep analysis"),
        ("4-6", .str "Obscure: Requires investigation, testing, or documentation review"),
        ("7-9", .str "Obvious: Visible through normal usage or basic testing"),
        ("10", .str "Public: Documented, well-known, or immediately apparent")])]),
    ("scoring_examples", .arr [.obj [("threat", .str "SQL Injection in public-facing API endpoint"),
        ("context", .str "E-commerce website with customer database"),
        ("dread_breakdown", .obj [("Damage", .obj [("score", .num 10),
            ("rationale", .str "Complete database compromise, customer PII exposure, financial data theft")]),
          ("Reproducibility", .obj [("score", .num 9),
            ("rationale", .str "Easily reproducible with standard tools (SQLMap), well-documented technique")]),
          ("Exploitability", .obj [("score", .num 8),
            ("rationale", .str "Requires basic SQL knowledge, automated tools available, public exploits exist")]),
          ("Affected_Users", .obj [("score", .num 10),
            ("rationale", .str "All users\x27 data potentially exposed, entire database accessible")]),
          ("Discoverability", .obj [("score", .num 9),
            ("rationale", .str "Common vulnerability, easily detected by automated scanners, OWASP Top 10")]),
          ("total", .num 46),
          ("priority", .str "Critical")])],
      .obj [("threat", .str "Insufficient audit logging for admin actions"),
        ("context", .str "Internal business application"),
        ("dread_breakdown", .obj [("Damage", .obj [("score", .num 6),
            ("rationale", .str "Enables malicious activity without detection, complicates forensics, compliance risk")]),
          ("Reproducibility", .obj [("score", .num 10),
            ("rationale", .str "Always reproducible - logging is either present or not")]),
          ("Exploitability", .obj [("score", .num 5),
            ("rationale", .str "Requires legitimate admin access first, not directly exploitable")]),
          ("Affected_Users", .obj [("score", .num 7),
            ("rationale", .str "Affects incident response capability, impacts all users indirectly")]),
          ("Discoverability", .obj [("score", .num 6),
            ("rationale", .str "Requires code review or documentation review to discover")]),
          ("total", .num 34),
          ("priority", .str "High")])],
      .obj [("threat", .str "Weak password policy (minimum 6 characters, no complexity)"),
        ("context", .str "Consumer web application"),
        ("dread_breakdown", .obj [("Damage", .obj [("score", .num 7),
            ("rationale", .str "Individual account compromise, potential for credential stuffing")]),
          ("Reproducibility", .obj [("score", .num 8),
            ("rationale", .str "Brute force attacks are reliable with weak passwords")]),
          ("Exploitability", .obj [("score", .num 7),
            ("rationale", .str "Requires password hash access or online brute force, standard tools available")]),
          ("Affected_Users", .obj [("score", .num 6),
            ("rationale", .str "Affects users who choose weak passwords, not all users")]),
          ("Discoverability", .obj [("score", .num 8),
            ("rationale", .str "Easily discoverable during registration or password change")]),
          ("total", .num 36),
          ("priority", .str "High")])],
      .obj [("threat", .str "Missing CSRF protection on low-impact form"),
        ("context", .str "User preference settings update"),
        ("dread_breakdown", .obj [("Damage", .obj [("score", .num 3),
            ("rationale", .str "Limited to changing non-critical user preferences")]),
          ("Reproducibility", .obj [("score", .num 8),
            ("rationale", .str "Easily reproducible with standard CSRF techniques")]),
          ("Exploitability", .obj [("score", .num 6),
            ("rationale", .str "Requires social engineering to get user to visit malicious page")]),
          ("Affected_Users", .obj [("score", .num 4),
            ("rationale", .str "Affects individual users who fall victim to social engineering")]),
          ("Discoverability", .obj [("score", .num 7),
            ("rationale", .str "Detectable with automated security scanners")]),
          ("total", .num 28),
          ("priority", .str "Medium")])],
      .obj [("threat", .str "Information disclosure via verbose error messages"),
        ("context", .str "Stack traces exposed to users in production"),
        ("dread_breakdown", .obj [("Damage", .obj [("score", .num 5),
            ("rationale", .str "Reveals internal structure, file paths, technology versions - aids reconnaissance")]),
          ("Reproducibility", .obj [("score", .num 7),
            ("rationale", .str "Reproducible by triggering error conditions")]),
          ("Exploitability", .obj [("score", .num 6),
            ("rationale", .str "Requires ability to trigger errors, not directly exploitable")]),
          ("Affected_Users", .obj [("score", .num 5),
            ("rationale", .str "Information disclosure to potential attackers, indirect user impact")]),
          ("Discoverability", .obj [("score", .num 8),
            ("rationale", .str "Easily discovered through normal usage and error triggering")]),
          ("total", .num 31),
          ("priority", .str "High")])]]),
    ("threats", threats),
    ("scoring_guidance", scoring_guidance),
    ("analysis_guidance", .str "Score each threat using the DREAD criteria. Provide justification for each score based on the specific threat characteristics and application context."),
    ("next_steps", .obj [("after_scoring", .arr [.str "1. Prioritize threats by DREAD score (Critical: 40-50, High: 30-39)",
        .str "2. Call validate_threat_coverage to ensure no gaps",
        .str "3. Call generate_threat_mitigations for high-priority threats",
        .str "4. Consider create_threat_attack_trees for critical threats"])])])

/-- create_threat_attack_trees of src/api/index.py (lines 547-612). -/
def create_threat_attack_trees (w : World) (args : Json) : Except PyErr Json := do
  let threats ← pyGet args "threats" (.arr [])
  let max_depth ← pyGet args "max_depth" (.num 3)
  let output_format ← pyGet args "output_format" (.str "both")
  pure (.obj [("attack_tree_framework", .obj [("description", .str "Hierarchical representation of attack paths and methods"),
      ("structure", .obj [("root_goal", .str "Primary objective the attacker wants to achieve"),
        ("sub_goals", .str "Intermediate objectives that support the root goal"),
        ("attack_methods", .str "Specific techniques or vulnerabilities that enable each sub-goal"),
        ("prerequisites", .str "Conditions or access required for each attack method")]),
      ("common_patterns", .obj [("reconnaissance", .arr [.str "Information gathering", .str "System enumeration", .str "Social engineering"]),
        ("initial_access", .arr [.str "Phishing", .str "Credential stuffing", .str "Vulnerability exploitation"]),
        ("privilege_escalation", .arr [.str "Local exploits", .str "Credential theft", .str "Authorization bypass"]),
        ("persistence", .arr [.str "Backdoors", .str "Scheduled tasks", .str "Registry modification"]),
        ("exfiltration", .arr [.str "Data staging", .str "Command and control", .str "Covert channels"])])]),
    ("output_formats", .obj [("text", .obj [("description", .str "ASCII tree structure using └── and ├── characters"),
        ("example", .str "Goal: Steal API Keys\n├── [OR] Exploit Public Deployment\n│   ├── Access public instance\n│   └── Extract from browser\n└── [OR] Exploit Local Deployment\n    └── Read .env file")]),
      ("mermaid", .obj [("description", .str "Mermaid.js graph syntax for rendering diagrams"),
        ("example", .str "graph TD\n    A[Steal API Keys] --> B\x7bOR\x7d\n    B --> C[Exploit Public]\n    B --> D[Exploit Local]\n    C --> E[Access instance]\n    C --> F[Extract from browser]\n    D --> G[Read .env file]")]),
      ("json", .obj [("description", .str "Structured JSON representation"),
        ("example", .obj [("root", .str "Steal API Keys"),
          ("type", .str "OR"),
          ("children", .arr [.obj [("goal", .str "Exploit Public Deployment"),
              ("methods", .arr [.str "Access instance", .str "Extract from browser"])]])])]),
      ("both", .obj [("description", .str "Returns both text and mermaid formats"),
        ("note", .str "Current default, provides multiple visualization options")])]),
    ("threat_context", threats),
    ("max_depth", max_depth),
    ("output_format", output_format),
    ("analysis_guidance", .str "Create attack trees showing how threats could be realized. Start with high-level attack goals and decompose into specific attack vectors and prerequisites.")])

/-- generate_security_tests of src/api/index.py (lines 614-693). -/
def generate_security_tests (w : World) (args : Json) : Except PyErr Json := do
  let threats ← pyGet args "threats" (.arr [])
  let test_type ← pyGet args "test_type" (.str "mixed")
  let format_type ← pyGet args "format_type" (.str "gherkin")
  pure (.obj [("security_testing_framework", .obj [("description", .str "Structured approach to validate threat mitigations through testing"),
      ("test_types", .obj [("unit", .str "Test individual security controls in isolation"),
        ("integration", .str "Test security controls working together"),
        ("penetration", .str "Simulate real-world attack scenarios"),
        ("compliance", .str "Verify adherence to security standards")]),
      ("test_formats", .obj [("gherkin", .str "Given-When-Then behavior-driven format"),
        ("procedural", .str "Step-by-step test procedures"),
        ("checklist", .str "Verification checklists")]),
      ("coverage_areas", .obj [("authentication", .str "Identity verification and access controls"),
        ("authorization", .str "Permission and privilege validation"),
        ("input_validation", .str "Data sanitization and bounds checking"),
        ("encryption", .str "Data protection in transit and at rest"),
        ("logging", .str "Security event detection and recording")])]),
    ("use_cases", .obj [("unit_testing", .obj [("description", .str "Generate unit tests for security functions"),
        ("example", .str "Test input validation, authentication checks, authorization logic")]),
      ("integration_testing", .obj [("description", .str "Generate integration tests for security flows"),
        ("example", .str "Test end-to-end authentication, authorization workflows")]),
      ("manual_testing", .obj [("description", .str "Generate test cases for manual security testing"),
        ("example", .str "Penetration testing checklists, security review procedures")]),
      ("automated_security_scanning", .obj [("description", .str "Generate test scenarios for security scanners"),
        ("example", .str "DAST tool configurations, security test automation")])]),
    ("format_examples", .obj [("gherkin", .obj [("description", .str "Behavior-driven development test scenarios"),
        ("example", .str "Feature: API Authentication\n  Scenario: Unauthorized access attempt\n    Given I am not authenticated\n    When I attempt to access protected endpoint\n    Then I should receive 401 Unauthorized\n    And no sensitive data should be returned")]),
      ("checklist", .obj [("description", .str "Manual testing checklist"),
        ("example", .str "## SQL Injection Testing\n- [ ] Test input validation with SQL metacharacters\n- [ ] Verify parameterized queries are used\n- [ ] Check error messages don\x27t reveal database structure\n- [ ] Test time-based blind injection")]),
      ("markdown", .obj [("description", .str "Structured test documentation"),
        ("example", .str "### Test Case: XSS Protection\n**Objective**: Verify XSS prevention in user input fields\n**Steps**:\n1. Submit XSS payload in username field\n2. Verify output is properly escaped\n3. Check CSP headers are present\n**Expected**: Script tags rendered as text, not executed")])]),
    ("threat_context", threats),
    ("test_type", test_type),
    ("format_type", format_type),
    ("analysis_guidance", .str "Generate specific test cases to validate that security controls effectively mitigate the identified threats. Include both positive and negative test scenarios.")])

/-- validate_threat_coverage of src/api/index.py (lines 840-872). -/
def validate_threat_coverage (w : World) (args : Json) : Except PyErr Json := do
  let threat_model ← pyGet args "threat_model" (.arr [])
  let app_context ← pyGet args "app_context" (.obj [])
  pure (.obj [("coverage_framework", .obj [("description", .str "Systematic validation of STRIDE threat model completeness"),
      ("stride_categories", .obj [("S", .str "Spoofing - Verify all identity-related threats are considered"),
        ("T", .str "Tampering - Verify all data/code integrity threats are considered"),
        ("R", .str "Repudiation - Verify all accountability threats are considered"),
        ("I", .str "Information Disclosure - Verify all confidentiality threats are considered"),
        ("D", .str "Denial of Service - Verify all availability threats are considered"),
        ("E", .str "Elevation of Privilege - Verify all authorization threats are considered")]),
      ("validation_criteria", .obj [("completeness", .str "All STRIDE categories addressed for each trust boundary"),
        ("specificity", .str "Threats are specific to the application context"),
        ("actionability", .str "Threats lead to implementable mitigations"),
        ("risk_alignment", .str "High-risk threats receive appropriate attention")]),
      ("common_gaps", .obj [("trust_boundaries", .str "Missing threats at component interfaces"),
        ("data_flows", .str "Insufficient consideration of data in transit"),
        ("privileged_operations", .str "Inadequate coverage of admin functions"),
        ("error_conditions", .str "Missing threat consideration for edge cases")])]),
    ("threat_model", threat_model),
    ("app_context", app_context),
    ("analysis_guidance", .str "Review the threat model against this framework to identify coverage gaps. Ensure each STRIDE category is adequately represented for all trust boundaries and data flows.")])

end Api

namespace Api

/-- Fixed header of generate_threat_report (src/api/index.py line 708). -/
def reportHeader : String := "# STRIDE Threat Model Report\n\n"

/-- Executive-summary section (lines 711-721). -/
def reportExecutiveSummary : String := "## Executive Summary\n\n*This section should provide a high-level overview of the threat modeling exercise, key findings, and recommended actions.*\n\n**Instructions for LLM client:**\n- Summarize the total number of threats identified across STRIDE categories\n- Highlight critical and high-priority threats\n- Provide key recommendations for immediate action\n- Include risk assessment summary\n\n"

/-- Application-overview section (lines 723-727), always appended. -/
def reportApplicationOverview : String := "## Application Overview\n\n*Describe the application architecture, components, and security-relevant characteristics based on the application context used for threat modeling.*\n\n"

/-- Threat-analysis section (lines 730-757). -/
def reportThreatAnalysis : String := "## Threat Analysis\n\n*Detail the identified threats organized by STRIDE category. For each threat, include:*\n- Threat ID\n- Description\n- STRIDE category\n- Attack scenarios\n- Potential impact\n\n### Spoofing Threats\n*List and describe spoofing-related threats (identity impersonation, authentication bypass)*\n\n### Tampering Threats\n*List and describe tampering-related threats (data/code modification)*\n\n### Repudiation Threats\n*List and describe repudiation-related threats (insufficient logging, accountability gaps)*\n\n### Information Disclosure Threats\n*List and describe information disclosure threats (unauthorized data access, privacy violations)*\n\n### Denial of Service Threats\n*List and describe denial of service threats (resource exhaustion, availability attacks)*\n\n### Elevation of Privilege Threats\n*List and describe privilege escalation threats (authorization bypass, access control violations)*\n\n"

/-- Risk-assessment section (lines 760-776). -/
def reportRiskAssessment : String := "## Risk Assessment\n\n*Provide DREAD scores and risk prioritization for identified threats.*\n\n### Critical Priority Threats (DREAD: 40-50)\n*Threats requiring immediate action*\n\n### High Priority Threats (DREAD: 30-39)\n*Threats requiring prompt remediation*\n\n### Medium Priority Threats (DREAD: 20-29)\n*Threats for near-term planning*\n\n### Low Priority Threats (DREAD: 5-19)\n*Threats for long-term consideration*\n\n"

/-- Mitigations section (lines 779-796). -/
def reportMitigations : String := "## Recommended Mitigations\n\n*Detail specific mitigation strategies organized by priority. For each mitigation:*\n- Control type (Preventive/Detective/Corrective)\n- Implementation difficulty (Easy/Medium/Hard)\n- Priority level\n- Specific implementation guidance\n\n### High Priority Mitigations\n*Critical security controls for immediate implementation*\n\n### Medium Priority Mitigations\n*Important controls for near-term planning*\n\n### Low Priority Mitigations\n*Additional defensive measures for comprehensive security*\n\n"

/-- Final section (lines 798-836) up to the threat_count placeholder,
stopping just before the words of the total-threats label. -/
def reportFinalA : String := "## Security Testing Plan\n\n*Outline test cases to validate mitigation effectiveness. Include:*\n- Test scenarios for each major threat\n- Acceptance criteria\n- Testing methodology (unit, integration, penetration)\n\n## Implementation Roadmap\n\n*Provide timeline and sequencing for mitigation implementation:*\n- Phase 1 (0-30 days): Critical mitigations\n- Phase 2 (30-90 days): High-priority mitigations\n- Phase 3 (90+ days): Medium and low-priority mitigations\n\n## Appendix\n\n### Threat Model Data\n*Technical details about the threat model*\n\n**"

/-- The label preceding the interpolated threat count. -/
def reportTotalLabel : String := "Total Threats Identified:** "

/-- Final section after the threat_count placeholder. -/
def reportFinalB : String := "\n\n### STRIDE Coverage\n*Breakdown of threats by STRIDE category*\n\n### References\n*Standards, frameworks, and resources referenced*\n- STRIDE Threat Modeling Methodology\n- DREAD Risk Assessment Framework\n- OWASP Top 10\n- CWE/SANS Top 25\n\n---\n\n**Report Generated:** [Date]\n**Threat Modeling Framework:** STRIDE\n**Risk Scoring Method:** DREAD\n\n*This report was generated using the STRIDE GPT MCP Server threat modeling framework. The LLM client should populate each section with specific analysis based on the provided threat model data.*\n"

/-- generate_threat_report of src/api/index.py (lines 695-838): builds a
markdown string; the trailing str.format replaces the threat_count
placeholder, modelled by the reportFinalA/reportTotalLabel/count/
reportFinalB concatenation.  Returned as a Json string since the function
returns a Python str. -/
def generate_threat_report (w : World) (args : Json) : Except PyErr Json := do
  let threat_model ← pyGet args "threat_model" (.arr [])
  let _mitigations ← pyGet args "mitigations" (.arr [])
  let _dread_scores ← pyGet args "dread_scores" (.arr [])
  let _attack_trees ← pyGet args "attack_trees" (.arr [])
  let include_sections ← pyGet args "include_sections"
    (.arr [.str "executive_summary", .str "threats", .str "mitigations", .str "risk_scores"])
  let report := reportHeader
  let b1 ← pyIn "executive_summary" include_sections
  let report := if b1 then report ++ reportExecutiveSummary else report
  let report := report ++ reportApplicationOverview
  let b2 ← pyIn "threats" include_sections
  let report := if b2 then report ++ reportThreatAnalysis else report
  let b3 ← pyIn "risk_scores" include_sections
  let report := if b3 then report ++ reportRiskAssessment else report
  let b4 ← pyIn "mitigations" include_sections
  let report := if b4 then report ++ reportMitigations else report
  let threat_count := match threat_model with
    | .arr xs => xs.length
    | _ => 0
  let report := report ++ reportFinalA ++ reportTotalLabel ++
    toString threat_count ++ reportFinalB
  pure (.str report)

end Api

namespace Api

/-- base_framework static content of get_repository_analysis_guide
(src/api/index.py lines 880-932), as its ordered key list. -/
def repoBaseFramework : List (String × Json) :=
  [("analysis_framework", .obj [("description", .str "Structured approach to repository analysis for threat modeling"),
      ("stages", .obj [("initial", .obj [("objective", .str "Quick scan to understand tech stack, architecture, and deployment model"),
          ("target_files", .str "3-5 key files"),
          ("focus", .str "High-level only"),
          ("output", .str "Tech stack, deployment model, basic architecture")]),
        ("deep_dive", .obj [("objective", .str "Extract detailed security context for threat modeling"),
          ("target_files", .str "10-15 targeted files/searches"),
          ("focus", .str "Security-critical components only"),
          ("output", .str "Trust boundaries, sensitive data, access controls")]),
        ("validation", .obj [("objective", .str "Verify sufficient context for threat modeling"),
          ("target_files", .str "Review completeness"),
          ("output", .str "Readiness assessment or identified gaps")])])]),
    ("context_management", .obj [("description", .str "Efficient analysis principles to preserve context for threat modeling"),
      ("optimization_principles", .arr [.str "When in doubt, search instead of read",
        .str "STOP after 3-5 file reads in initial stage - assess readiness",
        .str "STOP after 8-12 searches/reads in deep_dive - assess readiness",
        .str "Don\x27t re-read files - reference previous reads by file path",
        .str "Search returns snippets; full reads return entire files",
        .str "Use file path references in threat descriptions, not code snippets"]),
      ("stopping_checkpoints", .obj [("after_initial", .str "After 3-5 file reads, STOP and ask: Can I identify app type, tech stack, deployment model? If yes, proceed to deep_dive. If no, read 1-2 more specific files."),
        ("after_deep_dive", .str "After 8-12 searches/reads, STOP and ask: Can I populate the output_template fields? If yes, start threat modeling. If no, search for specific missing info only."),
        ("principle", .str "Don\x27t read for completeness - read until you have enough. More files = wasted context.")]),
      ("decision_guidance", .obj [("read_full_file_when", .arr [.str "You need specific configuration values (.env.example, config files)",
          .str "File type is typically small (package.json, docker-compose.yml, README)",
          .str "You need the complete architecture overview"]),
        ("use_search_when", .arr [.str "Looking for patterns (authentication methods, authorization checks)",
          .str "Examining application code (controllers, services, middleware)",
          .str "File type is typically large (application logic, route handlers)",
          .str "You need to understand \x27how\x27 something works, not specific values"])])])]

/-- prioritized_reading_strategy (lines 936-971, initial stage). -/
def repoPrioritizedReading : Json :=
  .obj [("description", .str "File reading strategy based on information value and typical file sizes"),
    ("read_these_files", .obj [("priority", .str "Read first - typically small with high information density"),
      ("files", .arr [.str "README.md - architecture overview",
        .str "package.json / requirements.txt / pom.xml - tech stack identification",
        .str "docker-compose.yml / Dockerfile - deployment model",
        .str ".env.example - integrations and required services"]),
      ("characteristics", .str "Config and documentation files are usually small, contain specific values needed for threat modeling"),
      ("method", .str "Use mcp__github__get_file_contents")]),
    ("search_instead_of_read", .obj [("priority", .str "Use code search to extract relevant snippets - avoid full reads"),
      ("patterns", .arr [.str "OpenAPI/Swagger specs - search for endpoint definitions",
        .str "Auth middleware - search for \x27authenticate\x27 OR \x27jwt.verify\x27 patterns",
        .str "Database models - search for \x27model\x27 OR \x27schema\x27 patterns",
        .str "Controllers/routes - search for specific endpoints or patterns"]),
      ("characteristics", .str "Application code files are typically large; search gives you relevant snippets without full file content"),
      ("method", .str "Use mcp__github__search_code with targeted queries")]),
    ("avoid_or_skip", .obj [("priority", .str "Never read these fully - always use search or skip entirely"),
      ("files", .arr [.str "Application code files (controllers, services, handlers) - search instead",
        .str "Database migrations - infer schema from models or search",
        .str "Test files - usually not needed for threat modeling",
        .str "Generated code / build artifacts - not relevant",
        .str "Large documentation files - search for specific sections if needed"]),
      ("alternative", .str "Use mcp__github__search_code with specific keywords")])]

/-- initial_reconnaissance (lines 973-1025, initial stage). -/
def repoInitialReconnaissance : Json :=
  .obj [("files_to_examine_first", .obj [("documentation", .arr [.str "README.md", .str "ARCHITECTURE.md", .str "docs/architecture.*", .str "docs/design.*"]),
      ("package_managers", .arr [.str "package.json",
        .str "requirements.txt",
        .str "pom.xml",
        .str "Cargo.toml",
        .str "go.mod",
        .str "Gemfile",
        .str "composer.json"]),
      ("containerization", .arr [.str "docker-compose.yml", .str "Dockerfile", .str "docker-compose.yaml", .str ".dockerignore"]),
      ("configuration", .arr [.str ".env.example",
        .str "config/",
        .str "*.config.js",
        .str "*.config.ts",
        .str "application.yml",
        .str "appsettings.json"]),
      ("infrastructure", .arr [.str "terraform/",
        .str "*.tf",
        .str "cloudformation/",
        .str "*.yaml",
        .str "kubernetes/",
        .str "k8s/",
        .str ".github/workflows/",
        .str ".gitlab-ci.yml"]),
      ("api_specs", .arr [.str "openapi.yaml", .str "swagger.json", .str "schema.graphql", .str "*.proto"])]),
    ("extraction_patterns", .obj [("authentication_mechanisms", .obj [("JWT", .arr [.str "jsonwebtoken", .str "pyjwt", .str "jose", .str "jwt-decode", .str "auth0"]),
        ("OAuth_2.0", .arr [.str "passport",
          .str "passport-oauth2",
          .str "authlib",
          .str "spring-security-oauth2",
          .str "oauth2client"]),
        ("Session-based", .arr [.str "express-session", .str "django.contrib.sessions", .str "flask-session", .str "rack-session"]),
        ("API_Keys", .arr [.str "API key validation patterns in code", .str "x-api-key headers"]),
        ("SAML_SSO", .arr [.str "saml2", .str "passport-saml", .str "ruby-saml"]),
        ("Multi-factor", .arr [.str "speakeasy", .str "pyotp", .str "authy", .str "totp"])]),
      ("deployment_model", .obj [("Containerized_microservices", .arr [.str "Dockerfile AND kubernetes/", .str "docker-compose with multiple services"]),
        ("Serverless_functions", .arr [.str "serverless.yml",
          .str "sam-template.yaml",
          .str "netlify.toml",
          .str "vercel.json with functions"]),
        ("Multi-container_application", .arr [.str "docker-compose.yml with multiple services"]),
        ("Client-side_SPA", .arr [.str "Static hosting config", .str "Build output to dist/ or build/"]),
        ("Traditional_server", .arr [.str "Server configuration files", .str "No containerization"])]),
      ("technology_stack", .obj [("Frontend", .obj [("React", .arr [.str "react", .str "react-dom in dependencies"]),
          ("Vue", .arr [.str "vue in dependencies"]),
          ("Angular", .arr [.str "@angular/core"]),
          ("Svelte", .arr [.str "svelte in dependencies"]),
          ("Next.js", .arr [.str "next in dependencies"])]),
        ("Backend", .obj [("Express", .arr [.str "express in dependencies"]),
          ("FastAPI", .arr [.str "fastapi in requirements"]),
          ("Django", .arr [.str "django in requirements"]),
          ("Spring_Boot", .arr [.str "spring-boot in pom.xml/gradle"]),
          ("Rails", .arr [.str "rails in Gemfile"]),
          ("Flask", .arr [.str "flask in requirements"])]),
        ("Database", .obj [("PostgreSQL", .arr [.str "pg", .str "psycopg2", .str "postgresql"]),
          ("MongoDB", .arr [.str "mongodb", .str "mongoose", .str "pymongo"]),
          ("MySQL", .arr [.str "mysql", .str "mysql2", .str "mysqlclient"]),
          ("Redis", .arr [.str "redis", .str "ioredis"]),
          ("DynamoDB", .arr [.str "aws-sdk dynamodb", .str "boto3 dynamodb"])]),
        ("Message_Queues", .arr [.str "rabbitmq", .str "kafka", .str "aws-sdk sqs", .str "celery"]),
        ("Caching", .arr [.str "redis", .str "memcached", .str "node-cache"])])])]

/-- deep_dive_analysis (lines 1031-1088, deep_dive stage). -/
def repoDeepDiveAnalysis : Json :=
  .obj [("trust_boundaries", .obj [("external_boundaries", .obj [("description", .str "Entry points from untrusted sources"),
        ("locations_to_examine", .arr [.str "Public API endpoints (routes, controllers, handlers)",
          .str "Authentication entry points (login, registration, password reset)",
          .str "File upload handlers and multipart form processors",
          .str "Webhook receivers and callback endpoints",
          .str "GraphQL/gRPC/WebSocket endpoints",
          .str "Public-facing web pages and forms"])]),
      ("internal_boundaries", .obj [("description", .str "Trust transitions within the system"),
        ("locations_to_examine", .arr [.str "Service-to-service communication (microservices)",
          .str "Database access layers and query builders",
          .str "Admin/privileged functionality and dashboards",
          .str "Background job processors and queues",
          .str "Third-party API integrations and SDKs",
          .str "Shared libraries and common modules"])])]),
    ("code_patterns_to_analyze", .obj [("sensitive_data_handling", .obj [("user_models", .str "Models/schemas with email, password, name, address, phone, SSN"),
        ("payment_processing", .str "Stripe, PayPal, payment gateway integrations"),
        ("healthcare_data", .str "HIPAA-related fields, patient records, PHI"),
        ("financial_data", .str "Transaction models, account balances, trading data"),
        ("credentials_secrets", .str "API keys, tokens, certificates, encryption keys"),
        ("files_to_check", .arr [.str "models/", .str "schemas/", .str "entities/", .str "domain/", .str "database/migrations/"])]),
      ("access_control_patterns", .obj [("middleware_decorators", .str "@require_auth, @admin_only, @permission_required, authenticate middleware"),
        ("rbac_implementations", .str "Role and permission models, access control lists"),
        ("row_level_security", .str "Multi-tenancy, data isolation patterns"),
        ("admin_functionality", .str "Admin panels, privileged operations"),
        ("files_to_check", .arr [.str "middleware/", .str "decorators/", .str "guards/", .str "policies/", .str "permissions/"])]),
      ("data_flow_analysis", .obj [("request_handling", .str "Request → Validation → Processing → Storage flow"),
        ("user_input", .str "Form handling, API body parsing, query parameters"),
        ("serialization", .str "Data transformation, API responses, template rendering"),
        ("logging_audit", .str "Security event logging, audit trails, activity logs"),
        ("files_to_check", .arr [.str "routes/", .str "controllers/", .str "handlers/", .str "api/", .str "views/"])]),
      ("external_dependencies", .obj [("third_party_apis", .str "Payment, authentication, analytics services"),
        ("cloud_services", .str "AWS S3, SQS, Lambda, Azure, GCP services"),
        ("cdn_assets", .str "Static asset hosting, CDN configuration"),
        ("communication", .str "Email (SendGrid, SES), SMS (Twilio)"),
        ("monitoring", .str "Sentry, DataDog, New Relic, logging services"),
        ("files_to_check", .arr [.str "package.json/requirements.txt dependencies",
          .str "config/",
          .str "services/",
          .str "integrations/"])])])]

/-- technology_guides (lines 1091-1177, deep_dive stage). -/
def repoTechnologyGuides : Json :=
  .obj [("web_applications", .obj [("applicable_if", .str "React/Vue/Angular + Node.js/Django/Rails + Database"),
      ("key_files", .arr [.str "src/routes/ or src/controllers/ - API endpoints and routing",
        .str "src/middleware/auth.* - Authentication and authorization",
        .str "src/models/ or src/schemas/ - Database schemas and sensitive fields",
        .str "src/services/ - Business logic and external integrations",
        .str ".env.example - Configuration template and required secrets"]),
      ("security_focus", .arr [.str "API authentication and authorization patterns",
        .str "CORS configuration and origin validation",
        .str "Session management and token handling",
        .str "Input validation and sanitization libraries",
        .str "Database query patterns (prepared statements vs. string concatenation)"])]),
    ("api_services", .obj [("applicable_if", .str "FastAPI, Express, Django REST, Spring Boot, ASP.NET Core"),
      ("key_files", .arr [.str "Route/endpoint definitions and handlers",
        .str "Authentication middleware and security filters",
        .str "Input validation schemas (Pydantic, Joi, Bean Validation)",
        .str "Database ORM models and repositories",
        .str "API documentation (OpenAPI/Swagger specs)"]),
      ("security_focus", .arr [.str "OAuth 2.0 / JWT implementation and validation",
        .str "Rate limiting and request throttling",
        .str "API versioning and backward compatibility",
        .str "Input validation and type safety",
        .str "Error handling and information disclosure prevention"])]),
    ("cloud_infrastructure", .obj [("applicable_if", .str "Terraform, CloudFormation, Pulumi, CDK"),
      ("key_files", .arr [.str "*.tf or *.yaml - Infrastructure definitions",
        .str "IAM roles, policies, and permission boundaries",
        .str "Security groups, NACLs, firewall rules",
        .str "KMS keys and secrets management configuration",
        .str "CI/CD pipeline definitions and deployment workflows"]),
      ("security_focus", .arr [.str "IAM least privilege principle",
        .str "Network segmentation and isolation",
        .str "Encryption in transit (TLS) and at rest (KMS)",
        .str "Secrets rotation and management",
        .str "Resource exposure (public vs. private endpoints)"])]),
    ("ai_ml_systems", .obj [("applicable_if", .str "Python ML stack, LangChain, vector databases, model serving"),
      ("key_files", .arr [.str "Model serving and inference code",
        .str "Training pipelines and data preprocessing",
        .str "Vector database configurations (Pinecone, Weaviate, ChromaDB)",
        .str "RAG system implementations and prompt templates",
        .str "Agent/tool configurations and permissions"]),
      ("security_focus", .arr [.str "Prompt injection and jailbreak vectors",
        .str "Training data provenance and validation",
        .str "Model access controls and API authentication",
        .str "Inference API rate limiting and abuse prevention",
        .str "AI agent boundaries, tool permissions, and autonomy limits"])]),
    ("mobile_applications", .obj [("applicable_if", .str "React Native, Flutter, iOS/Android native"),
      ("key_files", .arr [.str "API client and network layer",
        .str "Local storage and keychain/keystore usage",
        .str "Authentication and token management",
        .str "Deep linking and URL scheme handling",
        .str "App permissions and entitlements"]),
      ("security_focus", .arr [.str "Certificate pinning and TLS validation",
        .str "Secure local storage (encrypted databases)",
        .str "Token storage in secure enclaves",
        .str "Code obfuscation and reverse engineering protection",
        .str "Platform-specific security features (biometrics, sandboxing)"])])]

/-- validation_checklist (lines 1180-1215, validation stage). -/
def repoValidationChecklist : Json :=
  .obj [("architecture_understanding", .obj [("application_type", .str "Web app, API, mobile, infrastructure, AI/ML system identified"),
      ("technology_stack", .str "Primary languages, frameworks, and platforms documented"),
      ("deployment_model", .str "Cloud, on-premise, hybrid, serverless determined"),
      ("system_components", .str "Major components and their interactions mapped")]),
    ("security_context", .obj [("authentication_methods", .str "All auth mechanisms identified (JWT, OAuth, sessions, etc.)"),
      ("authorization_approach", .str "RBAC, ABAC, or custom authorization understood"),
      ("sensitive_data_types", .str "PII, payment data, health data, credentials catalogued"),
      ("trust_boundaries", .str "External and internal boundaries identified"),
      ("external_dependencies", .str "Third-party services and APIs mapped")]),
    ("deployment_operations", .obj [("internet_exposure", .str "Public, private, or hybrid exposure determined"),
      ("infrastructure_config", .str "Cloud resources, networking, security groups analyzed"),
      ("cicd_security", .str "Deployment pipeline and artifact security reviewed"),
      ("secrets_management", .str "How secrets are stored and accessed identified")]),
    ("readiness_assessment", .obj [("minimum_requirements", .arr [.str "app_description can be written (2-4 sentences)",
        .str "app_type is clear",
        .str "At least one authentication_method identified",
        .str "internet_facing status is known",
        .str "At least one sensitive_data_type identified"]),
      ("quality_indicators", .arr [.str "Trust boundaries are clearly understood",
        .str "Data flow patterns have been traced",
        .str "External dependencies are documented",
        .str "Access control patterns are identified"])])]

/-- output_template (lines 1218-1270), always included. -/
def repoOutputTemplate : Json :=
  .obj [("description", .str "Structured format for calling get_stride_threat_framework"),
    ("threat_modeling_input", .obj [("app_description", .obj [("template", .str "[App Type] with [Key Components]. Uses [Frontend Tech] frontend, [Backend Tech] backend, [Database Tech] for persistence. Handles [Key Functionality]. Deployed as [Deployment Model]. Integrates with [External Services]."),
        ("example", .str "E-commerce web application with product catalog, shopping cart, and checkout. Uses React frontend, Node.js/Express backend, PostgreSQL for persistence. Handles payment processing via Stripe. Deployed as Docker containers on AWS ECS. Integrates with SendGrid for emails and S3 for product images."),
        ("extraction_guidance", .str "Synthesize repository analysis into a concise architectural description (2-4 sentences) focusing on components, data flows, and external dependencies.")]),
      ("app_type", .obj [("valid_values", .arr [.str "Web Application",
          .str "API Service",
          .str "Mobile Application",
          .str "Cloud Infrastructure",
          .str "AI/ML System",
          .str "IoT System"]),
        ("extraction_guidance", .str "Choose the primary application category based on repository structure and purpose.")]),
      ("authentication_methods", .obj [("common_patterns", .obj [("JWT", .arr [.str "jsonwebtoken", .str "pyjwt", .str "jose libraries"]),
          ("OAuth 2.0", .arr [.str "passport", .str "authlib", .str "spring-security-oauth2"]),
          ("Session-based", .arr [.str "express-session", .str "django.contrib.sessions"]),
          ("API Keys", .arr [.str "API key validation in headers/query params"]),
          ("Multi-factor", .arr [.str "speakeasy", .str "pyotp", .str "authy"]),
          ("None/Public", .arr [.str "No authentication found - public API or static site"])]),
        ("extraction_guidance", .str "Identify ALL authentication mechanisms by analyzing auth middleware, security configuration, and dependency usage. Provide as an array.")]),
      ("internet_facing", .obj [("indicators", .obj [("true", .arr [.str "Public API endpoints",
            .str "Frontend assets",
            .str "CDN configuration",
            .str "Public load balancers",
            .str "Domain/DNS configuration"]),
          ("false", .arr [.str "VPN requirements",
            .str "Private subnets only",
            .str "Internal service mesh",
            .str "No public ingress",
            .str "Localhost only"]),
          ("partial", .arr [.str "Admin panel behind VPN", .str "Public API + private admin", .str "Hybrid architecture"])]),
        ("extraction_guidance", .str "Analyze deployment configuration and network architecture to determine internet exposure. Use boolean true/false.")]),
      ("sensitive_data_types", .obj [("detection_patterns", .obj [("PII", .arr [.str "User models with email, name, address, phone", .str "GDPR compliance mentions"]),
          ("Payment Cards", .arr [.str "Stripe/PayPal integration",
            .str "PCI compliance references",
            .str "Payment/transaction models"]),
          ("Healthcare Data", .arr [.str "HIPAA compliance", .str "Patient/medical record models", .str "PHI handling"]),
          ("Authentication Credentials", .arr [.str "Password hashing", .str "Token storage", .str "Session data"]),
          ("Financial Data", .arr [.str "Transaction models", .str "Account balances", .str "Trading/investment data"]),
          ("Proprietary Data", .arr [.str "Trade secrets", .str "Algorithms", .str "Business logic", .str "Source code"])]),
        ("extraction_guidance", .str "Examine data models, API payloads, and compliance documentation to identify ALL sensitive data types. Provide as an array.")])]),
    ("validation", .obj [("description", .str "Verify extraction completeness before calling get_stride_threat_framework"),
      ("required_fields", .arr [.str "app_description",
        .str "app_type",
        .str "authentication_methods",
        .str "internet_facing",
        .str "sensitive_data_types"]),
      ("quality_checks", .obj [("app_description", .str "Should be 2-4 sentences covering architecture, components, and key functionality"),
        ("authentication_methods", .str "At least one method identified, or explicitly state [\x27None/Public\x27] if truly unauthenticated"),
        ("sensitive_data_types", .str "At least one type identified based on data models and functionality, or [\x27User Data\x27] as minimum")])])]

/-- github_mcp_integration (lines 1273-1339), always included. -/
def repoGithubIntegration : Json :=
  .obj [("description", .str "Optimized workflow using GitHub MCP server - prefer search over full file reads"),
    ("initial_stage_workflow", .obj [("step_1", .obj [("tool", .str "mcp__github__get_file_contents"),
        ("params_example", .str "\x7b\"owner\": \"org\", \"repo\": \"repo\", \"path\": \"README.md\"\x7d"),
        ("purpose", .str "Architecture overview"),
        ("rationale", .str "README files contain structured overview; worth reading in full")]),
      ("step_2", .obj [("tool", .str "mcp__github__get_file_contents"),
        ("params_example", .str "\x7b\"owner\": \"org\", \"repo\": \"repo\", \"path\": \"package.json\"\x7d"),
        ("purpose", .str "Tech stack identification"),
        ("rationale", .str "Package manifests are typically small config files")]),
      ("step_3", .obj [("tool", .str "mcp__github__get_file_contents"),
        ("params_example", .str "\x7b\"owner\": \"org\", \"repo\": \"repo\", \"path\": \"docker-compose.yml\"\x7d"),
        ("purpose", .str "Deployment model"),
        ("rationale", .str "Docker configs are small, contain specific deployment info")]),
      ("checkpoint", .obj [("action", .str "STOP - Can you identify: app type, tech stack, deployment model?"),
        ("if_yes", .str "Proceed to deep_dive stage"),
        ("if_no", .str "Read .env.example or one more config file, then proceed")])]),
    ("deep_dive_workflow", .obj [("prefer_search_for_patterns", .obj [("authentication", .obj [("tool", .str "mcp__github__search_code"),
          ("query", .str "repo:org/repo \"passport.authenticate\" OR \"jwt.verify\""),
          ("rationale", .str "Search returns relevant auth code snippets without full middleware files")]),
        ("data_models", .obj [("tool", .str "mcp__github__search_code"),
          ("query", .str "repo:org/repo path:models/ OR path:schemas/"),
          ("rationale", .str "Search shows model structure without full file content")]),
        ("authorization", .obj [("tool", .str "mcp__github__search_code"),
          ("query", .str "repo:org/repo \"@require\" OR \"@admin\" OR \"authorize\""),
          ("rationale", .str "Search finds authorization patterns across codebase")])]),
      ("read_for_specific_values", .obj [("configuration", .obj [("tool", .str "mcp__github__get_file_contents"),
          ("path", .str ".env.example"),
          ("rationale", .str "Config files are small and contain specific integration details")])]),
      ("checkpoint", .obj [("action", .str "STOP after 8-12 searches/reads - Can you populate output_template fields?"),
        ("if_yes", .str "Start threat modeling with get_stride_threat_framework"),
        ("if_no", .str "Do 1-2 targeted searches for specific missing info only")])]),
    ("search_patterns", .obj [("authentication", .str "repo:owner/repo \"jwt.verify\" OR \"passport.authenticate\" OR \"auth.check\""),
      ("authorization", .str "repo:owner/repo \"@require\" OR \"@admin\" OR \"permission.check\" OR \"authorize\""),
      ("sensitive_data", .str "repo:owner/repo path:models/ \"password\" OR \"email\" OR \"ssn\" OR \"credit_card\""),
      ("input_validation", .str "repo:owner/repo \"validate(\" OR \"sanitize(\" OR \"escape(\""),
      ("database_queries", .str "repo:owner/repo \"query(\" OR \"execute(\" OR \"SELECT\" OR \"INSERT\""),
      ("api_endpoints", .str "repo:owner/repo \"app.get\" OR \"app.post\" OR \"@route\" OR \"@endpoint\"")])]

/-- Stage guidance string for the initial stage (lines 1343-1357). -/
def repoInitialGuidance : String := "INITIAL RECONNAISSANCE STAGE:\n\n1. Read 3-5 small, high-value files (README, package.json/requirements.txt, docker-compose.yml)\n2. STOP after 3-5 file reads - assess readiness to proceed\n3. Don\x27t read for completeness - read until you have enough\n\nGoal: Quickly identify app type, tech stack, and deployment model with minimal context usage.\n\nStopping Checkpoint: After 3-5 files, ask yourself:\n- Can I identify the application type?\n- Do I know the tech stack?\n- Is the deployment model clear?\n\nIf YES → Proceed to deep_dive stage\nIf NO → Read 1-2 more specific files, then proceed anyway"

/-- next_steps for the initial stage (lines 1359-1378). -/
def repoInitialNextSteps : Json :=
  .obj [("after_initial_analysis", .arr [.str "STOP after 3-5 file reads",
      .str "If you have: app type, tech stack, deployment model",
      .str "→ Proceed to analysis_stage=\x27deep_dive\x27",
      .str "",
      .str "If missing critical info:",
      .str "→ Read 1-2 more targeted files, then proceed to deep_dive"]),
    ("stopping_checkpoint", .arr [.str "After 3-5 file reads, STOP and assess",
      .str "Don\x27t read more files for completeness",
      .str "Move to deep_dive even if some details are unclear"]),
    ("github_mcp_tips", .arr [.str "Use mcp__github__get_file_contents for README.md, package.json/requirements.txt, docker-compose.yml",
      .str "Config and documentation files are typically small; safe to read in full",
      .str "STOP after 3-5 files - don\x27t keep reading"])]

/-- Stage guidance string for the deep_dive stage (lines 1381-1399). -/
def repoDeepDiveGuidance : String := "DEEP DIVE ANALYSIS STAGE:\n\n1. Use code SEARCH (not file reads) to find security patterns:\n   - Search for authentication patterns (jwt.verify, passport.authenticate)\n   - Search for data models (path:models/, path:schemas/)\n   - Search for authorization patterns (@require, @admin, authorize)\n\n2. Only read full files for configs (.env.example) - search application code instead\n\n3. STOP after 8-12 searches/reads and assess readiness\n\nGoal: Extract security context using targeted searches, not exhaustive file reading.\n\nStopping Checkpoint: After 8-12 searches/reads, ask yourself:\n- Can I populate the output_template fields (auth methods, sensitive data, etc.)?\n- Do I know enough about trust boundaries?\n\nIf YES → Proceed to validation stage\nIf NO → Do 1-2 targeted searches for specific missing info, then proceed anyway"

/-- next_steps for the deep_dive stage (lines 1401-1421). -/
def repoDeepDiveNextSteps : Json :=
  .obj [("after_deep_dive", .arr [.str "STOP after 8-12 searches/reads",
      .str "If you can populate output_template fields:",
      .str "→ Proceed to analysis_stage=\x27validation\x27",
      .str "",
      .str "If missing specific details:",
      .str "→ Do 1-2 targeted searches, then proceed to validation"]),
    ("stopping_checkpoint", .arr [.str "After 8-12 searches/reads, STOP and assess",
      .str "Don\x27t search for completeness - search until you have enough",
      .str "Move to validation even if some details are unclear"]),
    ("github_mcp_tips", .arr [.str "PREFER mcp__github__search_code over mcp__github__get_file_contents",
      .str "Search examples: \x27repo:org/repo \"jwt.verify\" OR \"passport.authenticate\"\x27",
      .str "Search returns relevant snippets; full reads return entire files",
      .str "Only read full files for config/documentation; search application code"])]

/-- Stage guidance string for the validation stage (lines 1424-1436). -/
def repoValidationGuidance : String := "VALIDATION STAGE:\n\nCheck if you can populate the minimum required fields for threat modeling:\n- app_description (2-4 sentences)\n- app_type\n- authentication_methods (at least one)\n- internet_facing (true/false)\n- sensitive_data_types (at least one)\n\nIf YES → Call get_stride_threat_framework and start threat modeling\nIf NO → Do 1-2 targeted searches for missing info, then start threat modeling anyway\n\nDon\x27t aim for perfect information - aim for sufficient information to identify threats."

/-- next_steps for the validation stage (lines 1438-1456). -/
def repoValidationNextSteps : Json :=
  .obj [("if_validation_passes", .arr [.str "1. Format your findings using the output_template",
      .str "2. Call get_stride_threat_framework with extracted data",
      .str "3. Begin STRIDE threat identification"]),
    ("if_validation_fails", .arr [.str "1. Identify 1-2 specific missing pieces",
      .str "2. Do targeted searches for those specific items only",
      .str "3. Proceed to threat modeling even if gaps remain"]),
    ("minimum_required_for_stride", .arr [.str "app_description (2-4 sentences)",
      .str "app_type (e.g., Web Application, API Service)",
      .str "authentication_methods (at least one, or \x27None/Public\x27)",
      .str "internet_facing (true/false)",
      .str "sensitive_data_types (at least one, or \x27User Data\x27 as default)"])]

/-- Fallback guidance for an unknown analysis stage (line 1459). -/
def repoUnknownGuidance : String := "Unknown analysis stage. Valid stages: \x27initial\x27, \x27deep_dive\x27, \x27validation\x27"

/-- get_repository_analysis_guide of src/api/index.py (lines 874-1465).
Python dict insertion order is modelled by list concatenation: base keys,
then the stage-specific additions, then output_template and
github_mcp_integration, then next_steps (added by the second stage
branching), then analysis_guidance, current_stage and repository_context.
In the deep_dive branch the Python computes primary_lang and framework by
calling .lower() on repository_context entries (values later unused);
those calls can raise and are kept for their effect. -/
def get_repository_analysis_guide (w : World) (args : Json) : Except PyErr Json := do
  let analysis_stage ← pyGet args "analysis_stage" (.str "initial")
  let repo_context ← pyGet args "repository_context" (.obj [])
  let stageAdds ←
    if jEqStr analysis_stage "initial" then
      pure [("prioritized_reading_strategy", repoPrioritizedReading),
        ("initial_reconnaissance", repoInitialReconnaissance)]
    else if jEqStr analysis_stage "deep_dive" then do
      let pl ← pyGet repo_context "primary_language" (.str "")
      let _primary_lang ← pyLower pl
      let fd ← pyGet repo_context "framework_detected" (.str "")
      let _framework ← pyLower fd
      pure [("deep_dive_analysis", repoDeepDiveAnalysis),
        ("technology_guides", repoTechnologyGuides)]
    else if jEqStr analysis_stage "validation" then
      pure [("validation_checklist", repoValidationChecklist)]
    else
      pure []
  let stageTail :=
    if jEqStr analysis_stage "initial" then
      (repoInitialGuidance, [("next_steps", repoInitialNextSteps)])
    else if jEqStr analysis_stage "deep_dive" then
      (repoDeepDiveGuidance, [("next_steps", repoDeepDiveNextSteps)])
    else if jEqStr analysis_stage "validation" then
      (repoValidationGuidance, [("next_steps", repoValidationNextSteps)])
    else
      (repoUnknownGuidance, [])
  pure (.obj (repoBaseFramework ++ stageAdds ++
    [("output_template", repoOutputTemplate),
     ("github_mcp_integration", repoGithubIntegration)] ++
    stageTail.2 ++
    [("analysis_guidance", .str stageTail.1),
     ("current_stage", analysis_stage),
     ("repository_context", repo_context)]))

end Api

namespace Api

/-- The eight tool descriptors returned by the tools/list branch of
handle_mcp_request (src/api/index.py lines 1495-1740). -/
def toolsList : List Json :=
  [.obj [("name", .str "get_stride_threat_framework"),
      ("description", .str "Get comprehensive STRIDE threat modeling framework and guidance for threat analysis"),
      ("inputSchema", .obj [("type", .str "object"),
        ("properties", .obj [("app_description", .obj [("type", .str "string"),
            ("description", .str "Detailed description of the application architecture and functionality")]),
          ("app_type", .obj [("type", .str "string"),
            ("description", .str "Type of application"),
            ("default", .str "Web Application")]),
          ("authentication_methods", .obj [("type", .str "array"),
            ("items", .obj [("type", .str "string")]),
            ("description", .str "List of authentication methods used"),
            ("default", .arr [.str "Username/Password"])]),
          ("internet_facing", .obj [("type", .str "boolean"),
            ("description", .str "Whether the application is accessible from the internet"),
            ("default", .bool true)]),
          ("sensitive_data_types", .obj [("type", .str "array"),
            ("items", .obj [("type", .str "string")]),
            ("description", .str "Types of sensitive data handled"),
            ("default", .arr [.str "User Data"])])]),
        ("required", .arr [.str "app_description"])])],
    .obj [("name", .str "generate_threat_mitigations"),
      ("description", .str "Generate actionable security mitigations for identified threats"),
      ("inputSchema", .obj [("type", .str "object"),
        ("properties", .obj [("threats", .obj [("type", .str "array"),
            ("items", .obj [("type", .str "object"),
              ("additionalProperties", .bool true)]),
            ("description", .str "Array of threat objects")]),
          ("priority_filter", .obj [("type", .str "string"),
            ("description", .str "Filter by priority"),
            ("default", .str "all")])]),
        ("required", .arr [.str "threats"])])],
    .obj [("name", .str "create_threat_attack_trees"),
      ("description", .str "Generate application-wide attack tree showing common attack vectors"),
      ("inputSchema", .obj [("type", .str "object"),
        ("properties", .obj [("threats", .obj [("type", .str "array"),
            ("items", .obj [("type", .str "object"),
              ("additionalProperties", .bool true)]),
            ("description", .str "Array of threat objects (used for context)")]),
          ("max_depth", .obj [("type", .str "integer"),
            ("description", .str "Maximum tree depth"),
            ("default", .num 3)]),
          ("output_format", .obj [("type", .str "string"),
            ("description", .str "Output format"),
            ("default", .str "both")])]),
        ("required", .arr [.str "threats"])])],
    .obj [("name", .str "calculate_threat_risk_scores"),
      ("description", .str "Calculate DREAD risk scores to prioritize threats by severity"),
      ("inputSchema", .obj [("type", .str "object"),
        ("properties", .obj [("threats", .obj [("type", .str "array"),
            ("items", .obj [("type", .str "object"),
              ("additionalProperties", .bool true)]),
            ("description", .str "Array of threat objects")]),
          ("scoring_guidance", .obj [("type", .str "object"),
            ("additionalProperties", .bool true),
            ("description", .str "Optional guidance for scoring adjustments")])]),
        ("required", .arr [.str "threats"])])],
    .obj [("name", .str "generate_security_tests"),
      ("description", .str "Generate security test cases to validate threat mitigations"),
      ("inputSchema", .obj [("type", .str "object"),
        ("properties", .obj [("threats", .obj [("type", .str "array"),
            ("items", .obj [("type", .str "object"),
              ("additionalProperties", .bool true)]),
            ("description", .str "Array of threat objects")]),
          ("test_type", .obj [("type", .str "string"),
            ("description", .str "Type of tests"),
            ("default", .str "mixed")]),
          ("format_type", .obj [("type", .str "string"),
            ("description", .str "Output format"),
            ("default", .str "gherkin")])]),
        ("required", .arr [.str "threats"])])],
    .obj [("name", .str "generate_threat_report"),
      ("description", .str "Format complete threat analysis as professional markdown report"),
      ("inputSchema", .obj [("type", .str "object"),
        ("properties", .obj [("threat_model", .obj [("type", .str "array"),
            ("items", .obj [("type", .str "object"),
              ("additionalProperties", .bool true)]),
            ("description", .str "Array of threat objects")]),
          ("mitigations", .obj [("type", .str "array"),
            ("items", .obj [("type", .str "object"),
              ("additionalProperties", .bool true)]),
            ("description", .str "Optional array of mitigation strategies")]),
          ("dread_scores", .obj [("type", .str "array"),
            ("items", .obj [("type", .str "object"),
              ("additionalProperties", .bool true)]),
            ("description", .str "Optional array of DREAD scores")]),
          ("attack_trees", .obj [("type", .str "array"),
            ("items", .obj [("type", .str "object"),
              ("additionalProperties", .bool true)]),
            ("description", .str "Optional array of attack trees")]),
          ("include_sections", .obj [("type", .str "array"),
            ("items", .obj [("type", .str "string")]),
            ("description", .str "Sections to include in report"),
            ("default", .arr [.str "executive_summary", .str "threats", .str "mitigations", .str "risk_scores"])])]),
        ("required", .arr [.str "threat_model"])])],
    .obj [("name", .str "validate_threat_coverage"),
      ("description", .str "Validate STRIDE coverage completeness and suggest threat model enhancements"),
      ("inputSchema", .obj [("type", .str "object"),
        ("properties", .obj [("threat_model", .obj [("type", .str "array"),
            ("items", .obj [("type", .str "object"),
              ("additionalProperties", .bool true)]),
            ("description", .str "Array of threat objects to validate")]),
          ("app_context", .obj [("type", .str "object"),
            ("additionalProperties", .bool true),
            ("description", .str "Application context information")])]),
        ("required", .arr [.str "threat_model", .str "app_context"])])],
    .obj [("name", .str "get_repository_analysis_guide"),
      ("description", .str "Get structured framework for extracting threat modeling inputs from repository analysis using GitHub MCP or similar tools"),
      ("inputSchema", .obj [("type", .str "object"),
        ("properties", .obj [("analysis_stage", .obj [("type", .str "string"),
            ("description", .str "Analysis stage: \x27initial\x27 (quick scan), \x27deep_dive\x27 (detailed security analysis), or \x27validation\x27 (readiness check)"),
            ("enum", .arr [.str "initial", .str "deep_dive", .str "validation"]),
            ("default", .str "initial")]),
          ("repository_context", .obj [("type", .str "object"),
            ("description", .str "Optional context about the repository"),
            ("properties", .obj [("primary_language", .obj [("type", .str "string"),
                ("description", .str "Primary programming language detected")]),
              ("framework_detected", .obj [("type", .str "string"),
                ("description", .str "Primary framework or platform detected")]),
              ("repository_type", .obj [("type", .str "string"),
                ("description", .str "Type of repository"),
                ("enum", .arr [.str "application", .str "library", .str "infrastructure", .str "unknown"])])])])]),
        ("required", .arr [])])]]

/-- The fixed result of the initialize branch (lines 1477-1491). -/
def initResult : Json :=
  .obj [("protocolVersion", .str "2025-03-26"),
    ("capabilities", .obj [("tools", .obj [("listChanged", .bool false)])]),
    ("serverInfo", .obj [("name", .str "STRIDE GPT MCP Server"),
      ("version", .str "0.1.0")]),
    ("instructions", .str "Professional threat modeling server using the STRIDE methodology.")]

/-- A JSON-RPC success envelope: the dict literal
jsonrpc/result/id used at every success return site. -/
def jrpcResult (request_id : Json) (result : Json) : Json :=
  .obj [("jsonrpc", .str "2.0"), ("result", result), ("id", request_id)]

/-- A JSON-RPC error envelope: the dict literal jsonrpc/error/id used at
every error return site. -/
def jrpcError (request_id : Json) (code : Int) (message : String) : Json :=
  .obj [("jsonrpc", .str "2.0"),
    ("error", .obj [("code", .num code), ("message", .str message)]),
    ("id", request_id)]

/-- The tools/call success envelope: the tool output wrapped in a
content array of one text entry. -/
def contentEnvelope (request_id : Json) (text : Json) : Json :=
  jrpcResult request_id (.obj [("content",
    .arr [.obj [("type", .str "text"), ("text", text)]])])

/-- The exception object corresponding to an embedded PyErr (used only for
the sanitizer, which ignores it). -/
def pyExcOf : PyErr → PyExc
  | .attributeError => ⟨"AttributeError", ""⟩
  | .typeError => ⟨"TypeError", ""⟩

/-- The if/elif tool dispatch inside the try block of the tools/call
branch (lines 1752-1881).  Every tool except generate_threat_report has
its output serialized with json.dumps(result, indent=2); the report tool
places its markdown string in the text field directly.  An unknown tool
name falls through to the INVALID_PARAMETER error envelope. -/
def toolDispatch (w : World) (request_id tool_name arguments : Json) :
    Except PyErr Json :=
  if jEqStr tool_name "get_stride_threat_framework" then
    (get_stride_threat_framework w arguments).map
      (fun result => contentEnvelope request_id (.str (dumps result)))
  else if jEqStr tool_name "generate_threat_mitigations" then
    (generate_threat_mitigations w arguments).map
      (fun result => contentEnvelope request_id (.str (dumps result)))
  else if jEqStr tool_name "calculate_threat_risk_scores" then
    (calculate_threat_risk_scores w arguments).map
      (fun result => contentEnvelope request_id (.str (dumps result)))
  else if jEqStr tool_name "create_threat_attack_trees" then
    (create_threat_attack_trees w arguments).map
      (fun result => contentEnvelope request_id (.str (dumps result)))
  else if jEqStr tool_name "generate_security_tests" then
    (generate_security_tests w arguments).map
      (fun result => contentEnvelope request_id (.str (dumps result)))
  else if jEqStr tool_name "generate_threat_report" then
    (generate_threat_report w arguments).map
      (fun result => contentEnvelope request_id result)
  else if jEqStr tool_name "validate_threat_coverage" then
    (validate_threat_coverage w arguments).map
      (fun result => contentEnvelope request_id (.str (dumps result)))
  else if jEqStr tool_name "get_repository_analysis_guide" then
    (get_repository_analysis_guide w arguments).map
      (fun result => contentEnvelope request_id (.str (dumps result)))
  else
    .ok (jrpcError request_id (errCode "INVALID_PARAMETER")
      ("Unknown tool: " ++ pyStr tool_name))

/-- The try/except around the tool dispatch: any exception raised by a
handler is sanitized and becomes a TOOL_EXECUTION_FAILED error
envelope. -/
def tryToolCall (w : World) (request_id tool_name arguments : Json) : Json :=
  match toolDispatch w request_id tool_name arguments with
  | .ok envelope => envelope
  | .error e =>
    let sanitized := sanitize_error (pyExcOf e)
      ("Tool execution: " ++ pyStr tool_name) w
    jrpcError request_id (errCode "TOOL_EXECUTION_FAILED") sanitized.2

/-- handle_mcp_request of src/api/index.py (lines 1467-1902).  The body is
a parsed JSON object; params.get raises (propagating out of the function,
hence the Except) when params is present but not a dict, since the
tools/call branch reads params.get before its try block. -/
def handle_mcp_request (body : List (String × Json)) (w : World) :
    Except PyErr Json :=
  let method := dget body "method" .null
  let params := dget body "params" (.obj [])
  let request_id := dget body "id" .null
  if jEqStr method "initialize" then
    .ok (jrpcResult request_id initResult)
  else if jEqStr method "tools/list" then
    .ok (jrpcResult request_id (.obj [("tools", .arr toolsList)]))
  else if jEqStr method "tools/call" then
    match params with
    | .obj pkvs =>
      let tool_name := jlookup pkvs "name" .null
      let arguments := jlookup pkvs "arguments" (.obj [])
      .ok (tryToolCall w request_id tool_name arguments)
    | _ => .error .attributeError
  else
    .ok (jrpcError request_id (-32601) ("Method not found: " ++ pyStr method))

/-- The catalogue of tool names in tools/list order. -/
def toolCatalogue : List String :=
  ["get_stride_threat_framework", "generate_threat_mitigations",
   "create_threat_attack_trees", "calculate_threat_risk_scores",
   "generate_security_tests", "generate_threat_report",
   "validate_threat_coverage", "get_repository_analysis_guide"]

/-- The eight tool handlers, keyed by their dispatch names. -/
def toolHandlers : List (String × (World → Json → Except PyErr Json)) :=
  [("get_stride_threat_framework", get_stride_threat_framework),
   ("generate_threat_mitigations", generate_threat_mitigations),
   ("calculate_threat_risk_scores", calculate_threat_risk_scores),
   ("create_threat_attack_trees", create_threat_attack_trees),
   ("generate_security_tests", generate_security_tests),
   ("generate_threat_report", generate_threat_report),
   ("validate_threat_coverage", validate_threat_coverage),
   ("get_repository_analysis_guide", get_repository_analysis_guide)]

end Api


/-- A tools/call request envelope (or handler outcome) is a success: an ok
envelope with a result key and no error key. -/
def isSuccessEnvelope : Except PyErr Json → Bool
  | .ok env => env.hasKey "result" && !(env.hasKey "error")
  | .error _ => false

/-- Key lookup inside an ok handler result. -/
def okLookup (r : Except PyErr Json) (k : String) : Option Json :=
  match r with
  | .ok p => lookupIn p k
  | .error _ => none

/-- A tools/call request body with empty arguments for the named tool. -/
def c10body (name : String) : List (String × Json) :=
  [("jsonrpc", .str "2.0"), ("method", .str "tools/call"),
   ("params", .obj [("name", .str name), ("arguments", .obj [])]),
   ("id", .num 1)]

/-- A tools/call request for get_repository_analysis_guide whose
analysis_stage is outside the declared enum. -/
def c10bodyStage : List (String × Json) :=
  [("jsonrpc", .str "2.0"), ("method", .str "tools/call"),
   ("params", .obj [("name", .str "get_repository_analysis_guide"),
     ("arguments", .obj [("analysis_stage", .str "bogus_stage")])]),
   ("id", .num 2)]

/-- The two-threat list of the report scenario. -/
def c9threats : List Json :=
  [.obj [("id", .str "T1")], .obj [("id", .str "T2")]]

/-- Arguments of the report scenario. -/
def c9args : Json := .obj [("threat_model", .arr c9threats)]

/-- The report-scenario request body. -/
def c9body : List (String × Json) :=
  [("jsonrpc", .str "2.0"), ("method", .str "tools/call"),
   ("params", .obj [("name", .str "generate_threat_report"),
     ("arguments", c9args)]),
   ("id", .num 6)]

/-- The markdown report produced for the report scenario: all four default
sections are included and the interpolated count is the length of the
threat list. -/
def c9report : String :=
  Api.reportHeader ++ Api.reportExecutiveSummary ++
    Api.reportApplicationOverview ++ Api.reportThreatAnalysis ++
    Api.reportRiskAssessment ++ Api.reportMitigations ++
    Api.reportFinalA ++ Api.reportTotalLabel ++
    toString c9threats.length ++ Api.reportFinalB

/- Definitions end here; the characterizations and claim theorems follow. -/

/- Characterization of the two validators against the spec-side predicates. -/

lemma allKVs_eq (d : Nat) (hd : d ≤ 20) (kvs : List (String × Json)) :
    (kvs.all (fun kv => decide (kv.1.length ≤ 500000) &&
      (decide (d + 1 + jdepth kv.2 ≤ 20) && !structViol kv.2))) =
    (decide (d + jdepthKVs kvs ≤ 20) && !structViolKVs kvs) := by
  induction kvs with
  | nil =>
    simp only [List.all_nil, jdepthKVs, structViolKVs, Bool.not_false, Bool.and_true]
    simp [decide_eq_true_eq]
    omega
  | cons kv rest ih =>
    obtain ⟨k, v⟩ := kv
    simp only [List.all_cons, ih, jdepthKVs, structViolKVs]
    cases hsv : structViol v <;> cases hr2 : structViolKVs rest <;>
      simp <;> rw [Bool.eq_iff_iff] <;>
      simp only [Bool.and_eq_true, Bool.not_eq_true', decide_eq_true_eq,
        decide_eq_false_iff_not] <;> omega

lemma allList_eq (d : Nat) (hd : d ≤ 20) (xs : List Json) :
    (xs.all (fun x => decide (d + 1 + jdepth x ≤ 20) && !structViol x)) =
    (decide (d + jdepthList xs ≤ 20) && !structViolList xs) := by
  induction xs with
  | nil =>
    simp only [List.all_nil, jdepthList, structViolList, Bool.not_false, Bool.and_true]
    simp [decide_eq_true_eq]
    omega
  | cons x rest ih =>
    simp only [List.all_cons, ih, jdepthList, structViolList]
    cases hsv : structViol x <;> cases hr2 : structViolList rest <;>
      simp <;> rw [Bool.eq_iff_iff] <;>
      simp only [Bool.and_eq_true, Bool.not_eq_true', decide_eq_true_eq,
        decide_eq_false_iff_not] <;> omega

theorem Api.valid_eq_api : ∀ (v : Json) (d : Nat),
    (Api.validate_json_complexity v d).valid =
      (decide (d + jdepth v ≤ 20) && !structViol v) := by
  have h20 : Api.plim "MAX_JSON_DEPTH" = 20 := rfl
  have hK : Api.plim "MAX_OBJECT_KEYS" = 500 := rfl
  have hA : Api.plim "MAX_ARRAY_LENGTH" = 2000 := rfl
  have hS : Api.plim "MAX_STRING_LENGTH" = 500000 := rfl
  intro v d
  refine @Api.validate_json_complexity.induct
    (fun v d => (Api.validate_json_complexity v d).valid =
      (decide (d + jdepth v ≤ 20) && !structViol v))
    (fun xs d => (Api.validateElems xs d).valid =
      xs.all (fun x => decide (d + 1 + jdepth x ≤ 20) && !structViol x))
    (fun kvs d => (Api.validateItems kvs d).valid =
      kvs.all (fun kv => decide (kv.1.length ≤ 500000) &&
        (decide (d + 1 + jdepth kv.2 ≤ 20) && !structViol kv.2)))
    ?_ ?_ ?_ ?_ ?_ ?_ ?_ ?_ ?_ ?_ ?_ ?_ ?_ ?_ ?_ v d
  · intro t dd hgt
    rw [h20] at hgt
    rw [Api.validate_json_complexity.eq_def, h20, if_pos hgt]
    have hdec : decide (dd + jdepth t ≤ 20) = false := by
      simp only [decide_eq_false_iff_not]
      omega
    simp [hdec]
  · intro dd hle kvs hk2
    rw [h20] at hle; rw [hK] at hk2
    simp only [Api.validate_json_complexity, h20, hK, if_neg (by omega : ¬ dd > 20),
      if_pos hk2, structViol]
    have hdec : decide (kvs.length > 500) = true := by simpa using hk2
    simp [hdec]
  · intro dd hle kvs hk2 ih
    rw [h20] at hle; rw [hK] at hk2
    simp only [Api.validate_json_complexity, h20, hK, if_neg (by omega : ¬ dd > 20),
      if_neg hk2, ih]
    rw [allKVs_eq dd (by omega) kvs]
    have hdec : decide (kvs.length > 500) = false := by simpa using hk2
    simp [jdepth, structViol, hdec]
  · intro dd hle xs hx
    rw [h20] at hle; rw [hA] at hx
    simp only [Api.validate_json_complexity, h20, hA, if_neg (by omega : ¬ dd > 20),
      if_pos hx, structViol]
    have hdec : decide (xs.length > 2000) = true := by simpa using hx
    simp [hdec]
  · intro dd hle xs hx ih
    rw [h20] at hle; rw [hA] at hx
    simp only [Api.validate_json_complexity, h20, hA, if_neg (by omega : ¬ dd > 20),
      if_neg hx, ih]
    rw [allList_eq dd (by omega) xs]
    have hdec : decide (xs.length > 2000) = false := by simpa using hx
    simp [jdepth, structViol, hdec]
  · intro dd hle s hs
    rw [h20] at hle; rw [hS] at hs
    simp only [Api.validate_json_complexity, h20, hS, if_neg (by omega : ¬ dd > 20),
      if_pos hs, structViol]
    have hdec : decide (s.length > 500000) = true := by simpa using hs
    simp [hdec]
  · intro dd hle s hs
    rw [h20] at hle; rw [hS] at hs
    simp only [Api.validate_json_complexity, h20, hS, if_neg (by omega : ¬ dd > 20),
      if_neg hs, structViol, jdepth]
    have hdec : decide (s.length > 500000) = false := by simpa using hs
    have hdec2 : decide (dd + 0 ≤ 20) = true := by simp; omega
    simp [hdec, hdec2] <;> omega
  · intro t dd hle hobj harr hstr
    rw [h20] at hle
    cases t with
    | null =>
      simp only [Api.validate_json_complexity, h20, if_neg (by omega : ¬ dd > 20),
        structViol, jdepth]
      have hdec2 : decide (dd + 0 ≤ 20) = true := by simp; omega
      simp [hdec2] <;> omega
    | bool b =>
      simp only [Api.validate_json_complexity, h20, if_neg (by omega : ¬ dd > 20),
        structViol, jdepth]
      have hdec2 : decide (dd + 0 ≤ 20) = true := by simp; omega
      simp [hdec2] <;> omega
    | num n =>
      simp only [Api.validate_json_complexity, h20, if_neg (by omega : ¬ dd > 20),
        structViol, jdepth]
      have hdec2 : decide (dd + 0 ≤ 20) = true := by simp; omega
      simp [hdec2] <;> omega
    | str s => exact absurd rfl (hstr s)
    | arr xs => exact absurd rfl (harr xs)
    | obj kvs => exact absurd rfl (hobj kvs)
  · intro dd
    simp [Api.validateElems]
  · intro dd item rest r hr ih1 ih2
    simp only [Api.validateElems, List.all_cons]
    rw [if_pos hr, ih2, ← ih1, hr]
    simp
  · intro dd item rest r hr ih1
    have hr2 : (Api.validate_json_complexity item (dd + 1)).valid = false := by
      simpa using hr
    simp only [Api.validateElems, List.all_cons]
    rw [if_neg hr, ← ih1, hr2]
    simp [hr2]
  · intro dd
    simp [Api.validateItems]
  · intro dd key value rest hk
    rw [hS] at hk
    simp only [Api.validateItems, List.all_cons]
    rw [if_pos (by rw [hS]; exact hk)]
    have hdec : decide (key.length ≤ 500000) = false := by
      simp only [decide_eq_false_iff_not]
      omega
    simp [hdec]
  · intro dd key value rest hk r hr ih1 ih2
    rw [hS] at hk
    simp only [Api.validateItems, List.all_cons]
    rw [if_neg (by rw [hS]; exact hk), if_pos hr, ih2, ← ih1, hr]
    have hdec : decide (key.length ≤ 500000) = true := by
      simp only [decide_eq_true_eq]
      omega
    simp [hdec]
  · intro dd key value rest hk r hr ih1
    rw [hS] at hk
    have hr2 : (Api.validate_json_complexity value (dd + 1)).valid = false := by
      simpa using hr
    simp only [Api.validateItems, List.all_cons]
    rw [if_neg (by rw [hS]; exact hk), if_neg hr, ← ih1, hr2]
    simp [hr2]

lemma allKVsNoKey_eq (d : Nat) (hd : d ≤ 20) (kvs : List (String × Json)) :
    (kvs.all (fun kv => decide (d + 1 + jdepth kv.2 ≤ 20) && !structViolNoKey kv.2)) =
    (decide (d + jdepthKVs kvs ≤ 20) && !structViolNoKeyKVs kvs) := by
  induction kvs with
  | nil =>
    simp only [List.all_nil, jdepthKVs, structViolNoKeyKVs, Bool.not_false, Bool.and_true]
    simp [decide_eq_true_eq]
    omega
  | cons kv rest ih =>
    obtain ⟨k, v⟩ := kv
    simp only [List.all_cons, ih, jdepthKVs, structViolNoKeyKVs]
    cases hsv : structViolNoKey v <;> cases hr2 : structViolNoKeyKVs rest <;>
      simp <;> rw [Bool.eq_iff_iff] <;>
      simp only [Bool.and_eq_true, Bool.not_eq_true', decide_eq_true_eq,
        decide_eq_false_iff_not] <;> omega

lemma allListNoKey_eq (d : Nat) (hd : d ≤ 20) (xs : List Json) :
    (xs.all (fun x => decide (d + 1 + jdepth x ≤ 20) && !structViolNoKey x)) =
    (decide (d + jdepthList xs ≤ 20) && !structViolNoKeyList xs) := by
  induction xs with
  | nil =>
    simp only [List.all_nil, jdepthList, structViolNoKeyList, Bool.not_false, Bool.and_true]
    simp [decide_eq_true_eq]
    omega
  | cons x rest ih =>
    simp only [List.all_cons, ih, jdepthList, structViolNoKeyList]
    cases hsv : structViolNoKey x <;> cases hr2 : structViolNoKeyList rest <;>
      simp <;> rw [Bool.eq_iff_iff] <;>
      simp only [Bool.and_eq_true, Bool.not_eq_true', decide_eq_true_eq,
        decide_eq_false_iff_not] <;> omega

theorem Server.valid_eq_server : ∀ (v : Json) (d : Nat),
    (Server.validate_json_complexity v d).valid =
      (decide (d + jdepth v ≤ 20) && !structViolNoKey v) := by
  have h20 : Server.plim "MAX_JSON_DEPTH" = 20 := rfl
  have hK : Server.plim "MAX_OBJECT_KEYS" = 500 := rfl
  have hA : Server.plim "MAX_ARRAY_LENGTH" = 2000 := rfl
  have hS : Server.plim "MAX_STRING_LENGTH" = 500000 := rfl
  intro v d
  refine @Server.validate_json_complexity.induct
    (fun v d => (Server.validate_json_complexity v d).valid =
      (decide (d + jdepth v ≤ 20) && !structViolNoKey v))
    (fun xs d => (Server.validateList xs d).valid =
      xs.all (fun x => decide (d + 1 + jdepth x ≤ 20) && !structViolNoKey x))
    (fun kvs d => (Server.validateValues kvs d).valid =
      kvs.all (fun kv => decide (d + 1 + jdepth kv.2 ≤ 20) && !structViolNoKey kv.2))
    ?_ ?_ ?_ ?_ ?_ ?_ ?_ ?_ ?_ ?_ ?_ ?_ ?_ ?_ v d
  · intro t dd hgt
    rw [h20] at hgt
    rw [Server.validate_json_complexity.eq_def, h20, if_pos hgt]
    have hdec : decide (dd + jdepth t ≤ 20) = false := by
      simp only [decide_eq_false_iff_not]
      omega
    simp [hdec]
  · intro dd hle kvs hk2
    rw [h20] at hle; rw [hK] at hk2
    simp only [Server.validate_json_complexity, h20, hK, if_neg (by omega : ¬ dd > 20),
      if_pos hk2, structViolNoKey]
    have hdec : decide (kvs.length > 500) = true := by simpa using hk2
    simp [hdec]
  · intro dd hle kvs hk2 ih
    rw [h20] at hle; rw [hK] at hk2
    simp only [Server.validate_json_complexity, h20, hK, if_neg (by omega : ¬ dd > 20),
      if_neg hk2, ih]
    rw [allKVsNoKey_eq dd (by omega) kvs]
    have hdec : decide (kvs.length > 500) = false := by simpa using hk2
    simp [jdepth, structViolNoKey, hdec]
  · intro dd hle xs hx
    rw [h20] at hle; rw [hA] at hx
    simp only [Server.validate_json_complexity, h20, hA, if_neg (by omega : ¬ dd > 20),
      if_pos hx, structViolNoKey]
    have hdec : decide (xs.length > 2000) = true := by simpa using hx
    simp [hdec]
  · intro dd hle xs hx ih
    rw [h20] at hle; rw [hA] at hx
    simp only [Server.validate_json_complexity, h20, hA, if_neg (by omega : ¬ dd > 20),
      if_neg hx, ih]
    rw [allListNoKey_eq dd (by omega) xs]
    have hdec : decide (xs.length > 2000) = false := by simpa using hx
    simp [jdepth, structViolNoKey, hdec]
  · intro dd hle s hs
    rw [h20] at hle; rw [hS] at hs
    simp only [Server.validate_json_complexity, h20, hS, if_neg (by omega : ¬ dd > 20),
      if_pos hs, structViolNoKey]
    have hdec : decide (s.length > 500000) = true := by simpa using hs
    simp [hdec]
  · intro dd hle s hs
    rw [h20] at hle; rw [hS] at hs
    simp only [Server.validate_json_complexity, h20, hS, if_neg (by omega : ¬ dd > 20),
      if_neg hs, structViolNoKey, jdepth]
    have hdec : decide (s.length > 500000) = false := by simpa using hs
    have hdec2 : decide (dd + 0 ≤ 20) = true := by simp; omega
    simp [hdec, hdec2] <;> omega
  · intro t dd hle hobj harr hstr
    rw [h20] at hle
    cases t with
    | null =>
      simp only [Server.validate_json_complexity, h20, if_neg (by omega : ¬ dd > 20),
        structViolNoKey, jdepth]
      have hdec2 : decide (dd + 0 ≤ 20) = true := by simp; omega
      simp [hdec2] <;> omega
    | bool b =>
      simp only [Server.validate_json_complexity, h20, if_neg (by omega : ¬ dd > 20),
        structViolNoKey, jdepth]
      have hdec2 : decide (dd + 0 ≤ 20) = true := by simp; omega
      simp [hdec2] <;> omega
    | num n =>
      simp only [Server.validate_json_complexity, h20, if_neg (by omega : ¬ dd > 20),
        structViolNoKey, jdepth]
      have hdec2 : decide (dd + 0 ≤ 20) = true := by simp; omega
      simp [hdec2] <;> omega
    | str s => exact absurd rfl (hstr s)
    | arr xs => exact absurd rfl (harr xs)
    | obj kvs => exact absurd rfl (hobj kvs)
  · intro dd
    simp [Server.validateList]
  · intro dd item rest r hr ih1 ih2
    simp only [Server.validateList, List.all_cons]
    rw [if_pos hr, ih2, ← ih1, hr]
    simp
  · intro dd item rest r hr ih1
    have hr2 : (Server.validate_json_complexity item (dd + 1)).valid = false := by
      simpa using hr
    simp only [Server.validateList, List.all_cons]
    rw [if_neg hr, ← ih1, hr2]
    simp [hr2]
  · intro dd
    simp [Server.validateValues]
  · intro dd key value rest r hr ih1 ih2
    simp only [Server.validateValues, List.all_cons]
    rw [if_pos hr, ih2, ← ih1, hr]
    simp
  · intro dd key value rest r hr ih1
    have hr2 : (Server.validate_json_complexity value (dd + 1)).valid = false := by
      simpa using hr
    simp only [Server.validateValues, List.all_cons]
    rw [if_neg hr, ← ih1, hr2]
    simp [hr2]

/- Item-loop characterizations used by the object-level claims. -/

lemma Api.validateItems_true_iff (d : Nat) (kvs : List (String × Json)) :
    (Api.validateItems kvs d).valid = true ↔
      ∀ kv ∈ kvs, kv.1.length ≤ 500000 ∧
        (Api.validate_json_complexity kv.2 (d + 1)).valid = true := by
  have hS : Api.plim "MAX_STRING_LENGTH" = 500000 := rfl
  induction kvs with
  | nil => simp [Api.validateItems]
  | cons kv rest ih =>
    obtain ⟨k, v⟩ := kv
    by_cases hk : k.length > 500000
    · simp only [Api.validateItems, hS, if_pos hk]
      constructor
      · intro h
        exact absurd h (by simp)
      · intro h
        have h1 : k.length ≤ 500000 := (h (k, v) (by simp)).1
        omega
    · simp only [Api.validateItems, hS, if_neg hk]
      cases hr : (Api.validate_json_complexity v (d + 1)).valid
      · simp only [hr, if_false, Bool.false_eq_true]
        constructor
        · intro h
          exact absurd h (by simp [hr])
        · intro h
          have h2 : (Api.validate_json_complexity v (d + 1)).valid = true :=
            (h (k, v) (by simp)).2
          rw [hr] at h2
          exact absurd h2 (by simp)
      · simp only [hr, if_true, ih]
        constructor
        · intro h
          intro kv hkv
          rcases List.mem_cons.mp hkv with heq | hmem
          · cases heq
            refine ⟨?_, hr⟩
            show k.length ≤ 500000
            omega
          · exact h kv hmem
        · intro h kv hkv
          exact h kv (List.mem_cons_of_mem _ hkv)

lemma Server.validateValues_true_iff (d : Nat) (kvs : List (String × Json)) :
    (Server.validateValues kvs d).valid = true ↔
      ∀ kv ∈ kvs, (Server.validate_json_complexity kv.2 (d + 1)).valid = true := by
  induction kvs with
  | nil => simp [Server.validateValues]
  | cons kv rest ih =>
    obtain ⟨k, v⟩ := kv
    cases hr : (Server.validate_json_complexity v (d + 1)).valid
    · simp only [Server.validateValues, hr, if_false, Bool.false_eq_true]
      constructor
      · intro h
        exact absurd h (by simp [hr])
      · intro h
        have h2 : (Server.validate_json_complexity v (d + 1)).valid = true :=
          h (k, v) (by simp)
        rw [hr] at h2
        exact absurd h2 (by simp)
    · simp only [Server.validateValues, hr, if_true, ih]
      constructor
      · intro h kv hkv
        rcases List.mem_cons.mp hkv with heq | hmem
        · cases heq
          exact hr
        · exact h kv hmem
      · intro h kv hkv
        exact h kv (List.mem_cons_of_mem _ hkv)

lemma c1key_length : c1key.length = 500001 := by
  show (List.replicate 500001 'k').length = 500001
  exact List.length_replicate 500001 'k' 

/-- C1 counterexample: the Server copy of validate_json_complexity accepts
an object whose single key is 500001 characters long, although that value
violates the string-or-key-length limit, so the claimed equivalence
(valid=false iff some limit is violated) fails for that copy. -/
theorem claim_C1_counterexample :
    (Server.validate_json_complexity (.obj [(c1key, .null)]) 0).valid = true ∧
    violatesLimits (.obj [(c1key, .null)]) = true := by
  refine ⟨rfl, ?_⟩
  have hk : decide (c1key.length > 500000) = true := by
    rw [c1key_length]
    rfl
  have hkvs : structViolKVs [(c1key, Json.null)] = true := by
    have e1 : structViolKVs [(c1key, Json.null)] =
        (decide (c1key.length > 500000) || structViol Json.null ||
          structViolKVs []) := rfl
    rw [e1, hk]
    rfl
  have hsv : structViol (.obj [(c1key, Json.null)]) = true := by
    have e2 : structViol (.obj [(c1key, Json.null)]) =
        (decide (([(c1key, Json.null)] : List (String × Json)).length > 500) ||
          structViolKVs [(c1key, Json.null)]) := rfl
    rw [e2, hkvs, Bool.or_true]
  have e0 : violatesLimits (.obj [(c1key, Json.null)]) =
      (decide (jdepth (.obj [(c1key, Json.null)]) > 20) ||
        structViol (.obj [(c1key, Json.null)])) := rfl
  rw [e0, hsv, Bool.or_true]

/-- C1 (amended): for every parsed JSON value, the Api copy of
validate_json_complexity returns valid=false iff the value violates one of
the four limits (depth over 20, over 500 object keys, array longer than
2000, string or key longer than 500000) somewhere in its structure; the
Server copy satisfies the same equivalence only with object-key lengths
exempt, since it never inspects keys. -/
theorem claim_C1 : ∀ v : Json,
    ((Api.validate_json_complexity v 0).valid = false ↔ violatesLimits v = true) ∧
    ((Server.validate_json_complexity v 0).valid = false ↔ violatesLimitsNoKey v = true) := by
  intro v
  constructor
  · rw [Api.valid_eq_api v 0]
    unfold violatesLimits
    cases hsv : structViol v <;>
      simp [hsv, decide_eq_true_eq, decide_eq_false_iff_not] <;> omega
  · rw [Server.valid_eq_server v 0]
    unfold violatesLimitsNoKey
    cases hsv : structViolNoKey v <;>
      simp [hsv, decide_eq_true_eq, decide_eq_false_iff_not] <;> omega

lemma c2key_length : c2key.length = 500001 := by
  show (List.replicate 500001 'q').length = 500001
  exact List.length_replicate 500001 'q' 

/-- C2 counterexample: the Server copy does not fail on an object with a
key longer than MAX_STRING_LENGTH, so the claimed key-length check is
absent from that copy. -/
theorem claim_C2_counterexample :
    (Server.validate_json_complexity (.obj [(c2key, .bool true)]) 0).valid = true ∧
    500000 < c2key.length := by
  constructor
  · rfl
  · rw [c2key_length]
    omega

/-- C2 (amended): for every object value at depth at most 20, the Api copy
of validate_json_complexity succeeds iff the key count is at most 500,
every key is at most 500000 characters, and the recursive validation of
every value at depth+1 succeeds; the Server copy likewise but without any
key-length condition. -/
theorem claim_C2 : ∀ (kvs : List (String × Json)) (d : Nat), d ≤ 20 →
    ((Api.validate_json_complexity (.obj kvs) d).valid = true ↔
      (kvs.length ≤ 500 ∧ ∀ kv ∈ kvs, kv.1.length ≤ 500000 ∧
        (Api.validate_json_complexity kv.2 (d + 1)).valid = true)) ∧
    ((Server.validate_json_complexity (.obj kvs) d).valid = true ↔
      (kvs.length ≤ 500 ∧ ∀ kv ∈ kvs,
        (Server.validate_json_complexity kv.2 (d + 1)).valid = true)) := by
  intro kvs d hd
  have h20a : Api.plim "MAX_JSON_DEPTH" = 20 := rfl
  have hKa : Api.plim "MAX_OBJECT_KEYS" = 500 := rfl
  have h20s : Server.plim "MAX_JSON_DEPTH" = 20 := rfl
  have hKs : Server.plim "MAX_OBJECT_KEYS" = 500 := rfl
  constructor
  · by_cases hk : kvs.length > 500
    · simp only [Api.validate_json_complexity, h20a, hKa,
        if_neg (by omega : ¬ d > 20), if_pos hk]
      constructor
      · intro h
        exact absurd h (by simp)
      · intro h
        omega
    · simp only [Api.validate_json_complexity, h20a, hKa,
        if_neg (by omega : ¬ d > 20), if_neg hk, Api.validateItems_true_iff]
      constructor
      · intro h
        exact ⟨by omega, h⟩
      · intro h
        exact h.2
  · by_cases hk : kvs.length > 500
    · simp only [Server.validate_json_complexity, h20s, hKs,
        if_neg (by omega : ¬ d > 20), if_pos hk]
      constructor
      · intro h
        exact absurd h (by simp)
      · intro h
        omega
    · simp only [Server.validate_json_complexity, h20s, hKs,
        if_neg (by omega : ¬ d > 20), if_neg hk, Server.validateValues_true_iff]
      constructor
      · intro h
        exact ⟨by omega, h⟩
      · intro h
        exact h.2

/-- C2 witness: the amended claim applied to a concrete one-entry object at
depth 0. -/
theorem claim_C2_witness :
    (0 : Nat) ≤ 20 ∧
    (((Api.validate_json_complexity (.obj [("k", .null)]) 0).valid = true ↔
      (([(("k" : String), Json.null)].length ≤ 500 ∧
        ∀ kv ∈ [(("k" : String), Json.null)], kv.1.length ≤ 500000 ∧
          (Api.validate_json_complexity kv.2 (0 + 1)).valid = true))) ∧
    ((Server.validate_json_complexity (.obj [("k", .null)]) 0).valid = true ↔
      (([(("k" : String), Json.null)].length ≤ 500 ∧
        ∀ kv ∈ [(("k" : String), Json.null)],
          (Server.validate_json_complexity kv.2 (0 + 1)).valid = true)))) :=
  ⟨by omega, claim_C2 [("k", .null)] 0 (by omega)⟩

/- Error-sanitizer claims. -/

lemma strContains_chars {n h : String} (hc : strContains n h) :
    ∀ c ∈ n.data, c ∈ h.data := by
  obtain ⟨s, t, rfl⟩ := hc
  intro c hcn
  rw [String.data_append, String.data_append]
  exact List.mem_append_left _ (List.mem_append_right _ hcn)

/-- C3 counterexample: for the exception with message "error", the
sanitized client message does contain str(E) — the fixed template itself
contains the word — so the claim's blanket non-containment is false. -/
theorem claim_C3_counterexample :
    (PyExc.mk "Exception" "error").msg = "error" ∧
    strContains "error" (Api.sanitize_error ⟨"Exception", "error"⟩ "ctx" w0).2 := by
  refine ⟨rfl, "An internal ", " occurred. Error ID: 01234567", ?_⟩
  rfl

/-- C3 (amended): sanitize_error returns a pair (errorId, m) with errorId
the first 8 characters of the uuid draw (so 8 characters whenever the draw
has at least 8), m exactly the fixed template followed by errorId, m
containing the literal "Error ID:", m independent of the exception and of
the context (and identical between the Api and Server copies), and — when
the errorId is hexadecimal — containing no string that has a path
separator '/' in it (hence no file path drawn from the exception).
Containment of str(E) or of the type name can fail only for strings
coincidentally present in the fixed template, as the counterexample
shows. -/
theorem claim_C3 : ∀ (e : PyExc) (ctx : String) (w : World),
    (Api.sanitize_error e ctx w).2 =
      "An internal error occurred. Error ID: " ++ (Api.sanitize_error e ctx w).1 ∧
    (Api.sanitize_error e ctx w).1 = w.uuidStr.take 8 ∧
    (8 ≤ w.uuidStr.length → (Api.sanitize_error e ctx w).1.length = 8) ∧
    strContains "Error ID:" (Api.sanitize_error e ctx w).2 ∧
    (∀ (e2 : PyExc) (ctx2 : String),
      Api.sanitize_error e2 ctx2 w = Api.sanitize_error e ctx w ∧
      Server.sanitize_error e2 ctx2 w = Api.sanitize_error e ctx w) ∧
    (isHexStr (w.uuidStr.take 8) = true →
      ∀ p : String, '/' ∈ p.data → ¬ strContains p (Api.sanitize_error e ctx w).2) := by
  intro e ctx w
  refine ⟨rfl, ?_, ?_, ?_, fun e2 ctx2 => ⟨rfl, rfl⟩, ?_⟩
  · rw [String.take_eq]
    rfl
  · intro hlen
    show (⟨w.uuidStr.data.take 8⟩ : String).length = 8
    have h2 : (⟨w.uuidStr.data.take 8⟩ : String).length = (w.uuidStr.data.take 8).length := rfl
    rw [h2, List.length_take]
    have h3 : w.uuidStr.length = w.uuidStr.data.length := rfl
    rw [h3] at hlen
    omega
  · refine ⟨"An internal error occurred. ", " " ++ (⟨w.uuidStr.data.take 8⟩ : String), ?_⟩
    show "An internal error occurred. " ++ "Error ID:" ++
        (" " ++ (⟨w.uuidStr.data.take 8⟩ : String)) =
      "An internal error occurred. Error ID: " ++ (⟨w.uuidStr.data.take 8⟩ : String)
    rw [← String.append_assoc]
    have h4 : ("An internal error occurred. " ++ "Error ID:" ++ " " : String) =
        "An internal error occurred. Error ID: " := rfl
    rw [h4]
  · intro hhex p hp hcont
    rw [String.take_eq] at hhex
    have hmem := strContains_chars hcont '/' hp
    have h5 : (Api.sanitize_error e ctx w).2 =
        "An internal error occurred. Error ID: " ++
          (⟨w.uuidStr.data.take 8⟩ : String) := rfl
    rw [h5, String.data_append] at hmem
    rcases List.mem_append.mp hmem with hin | hin
    · exact absurd hin (by decide)
    · have hall := List.all_eq_true.mp hhex '/' hin
      exact absurd hall (by decide)

/-- C3 witness: the amended claim applied to a concrete exception whose
message names a file path, a concrete context and the fixed uuid draw. -/
theorem claim_C3_witness :
    (8 ≤ ("01234567-89ab-cdef-0123-456789abcdef" : String).length ∧
      isHexStr (("01234567-89ab-cdef-0123-456789abcdef" : String).take 8) = true) ∧
    (Api.sanitize_error ⟨"ValueError", "DB failed at /secret/path.py"⟩
        "Tool execution: generate_threat_report" w0).2 =
      "An internal error occurred. Error ID: " ++
        (Api.sanitize_error ⟨"ValueError", "DB failed at /secret/path.py"⟩
          "Tool execution: generate_threat_report" w0).1 ∧
    (Api.sanitize_error ⟨"ValueError", "DB failed at /secret/path.py"⟩
        "Tool execution: generate_threat_report" w0).1.length = 8 ∧
    ¬ strContains "/secret/path.py"
      (Api.sanitize_error ⟨"ValueError", "DB failed at /secret/path.py"⟩
        "Tool execution: generate_threat_report" w0).2 := by
  have h := claim_C3 ⟨"ValueError", "DB failed at /secret/path.py"⟩
    "Tool execution: generate_threat_report" w0
  refine ⟨⟨by decide, by decide⟩, h.1, h.2.2.1 (by decide), ?_⟩
  exact h.2.2.2.2.2 (by decide) "/secret/path.py" (by decide)

/- Envelope-shape lemmas for the dispatcher claims. -/

lemma exceptMap_ok {r : Except PyErr Json} {f : Json → Json} {env : Json}
    (h : r.map f = .ok env) : ∃ p, r = .ok p ∧ env = f p := by
  cases r with
  | ok p =>
    refine ⟨p, rfl, ?_⟩
    simpa [Except.map] using h.symm
  | error e => simp [Except.map] at h

lemma toolDispatch_shape (w : World) (rid tn a env : Json)
    (h : Api.toolDispatch w rid tn a = .ok env) :
    (∃ t, env = Api.contentEnvelope rid t) ∨
    (∃ c m, env = Api.jrpcError rid c m) := by
  unfold Api.toolDispatch at h
  repeat' split at h
  all_goals
    first
    | (obtain ⟨p, -, rfl⟩ := exceptMap_ok h
       exact Or.inl ⟨_, rfl⟩)
    | (simp only [Except.ok.injEq] at h
       exact Or.inr ⟨_, _, h.symm⟩)

lemma tryToolCall_shape (w : World) (rid tn a : Json) :
    (∃ t, Api.tryToolCall w rid tn a = Api.contentEnvelope rid t) ∨
    (∃ c m, Api.tryToolCall w rid tn a = Api.jrpcError rid c m) := by
  unfold Api.tryToolCall
  cases hd : Api.toolDispatch w rid tn a with
  | ok env =>
    rcases toolDispatch_shape w rid tn a env hd with ⟨t, rfl⟩ | ⟨c, m, rfl⟩
    · exact Or.inl ⟨t, rfl⟩
    · exact Or.inr ⟨c, m, rfl⟩
  | error e => exact Or.inr ⟨_, _, rfl⟩

lemma handle_shape (body : List (String × Json)) (w : World) (env : Json)
    (h : Api.handle_mcp_request body w = .ok env) :
    (∃ r, env = Api.jrpcResult (dget body "id" .null) r) ∨
    (∃ c m, env = Api.jrpcError (dget body "id" .null) c m) := by
  simp only [Api.handle_mcp_request] at h
  split at h
  · simp only [Except.ok.injEq] at h
    exact Or.inl ⟨_, h.symm⟩
  · split at h
    · simp only [Except.ok.injEq] at h
      exact Or.inl ⟨_, h.symm⟩
    · split at h
      · split at h
        · simp only [Except.ok.injEq] at h
          rename_i pkvs heq
          rcases tryToolCall_shape w (dget body "id" .null)
              (jlookup pkvs "name" .null) (jlookup pkvs "arguments" (.obj []))
            with ⟨t, he⟩ | ⟨c, m, he⟩
          · refine Or.inl ⟨Json.obj [("content",
              .arr [.obj [("type", .str "text"), ("text", t)]])], ?_⟩
            rw [← h, he]
            rfl
          · exact Or.inr ⟨c, m, by rw [← h, he]⟩
        · simp at h
      · simp only [Except.ok.injEq] at h
        exact Or.inr ⟨_, _, h.symm⟩

/-- C4: every envelope returned by handle_mcp_request has exactly one of
the result/error keys, has jsonrpc "2.0", and echoes the request id
verbatim (an absent id is echoed as null, since body.get of a missing id
is None). -/
theorem claim_C4 : ∀ (body : List (String × Json)) (w : World) (env : Json),
    Api.handle_mcp_request body w = .ok env →
    ((env.hasKey "result" = true ∧ env.hasKey "error" = false) ∨
      (env.hasKey "error" = true ∧ env.hasKey "result" = false)) ∧
    lookupIn env "jsonrpc" = some (.str "2.0") ∧
    lookupIn env "id" = some (dget body "id" .null) := by
  intro body w env h
  rcases handle_shape body w env h with ⟨r, rfl⟩ | ⟨c, m, rfl⟩
  · exact ⟨Or.inl ⟨rfl, rfl⟩, rfl, rfl⟩
  · exact ⟨Or.inr ⟨rfl, rfl⟩, rfl, rfl⟩

/-- C4 witness: the invariant instantiated on a concrete initialize
request (whose body carries id 1). -/
theorem claim_C4_witness :
    Api.handle_mcp_request
        [("jsonrpc", .str "2.0"), ("method", .str "initialize"), ("id", .num 1)] w0 =
      .ok (Api.jrpcResult (.num 1) Api.initResult) ∧
    (((Api.jrpcResult (.num 1) Api.initResult).hasKey "result" = true ∧
        (Api.jrpcResult (.num 1) Api.initResult).hasKey "error" = false) ∨
      ((Api.jrpcResult (.num 1) Api.initResult).hasKey "error" = true ∧
        (Api.jrpcResult (.num 1) Api.initResult).hasKey "result" = false)) ∧
    lookupIn (Api.jrpcResult (.num 1) Api.initResult) "jsonrpc" = some (.str "2.0") ∧
    lookupIn (Api.jrpcResult (.num 1) Api.initResult) "id" = some (.num 1) :=
  ⟨rfl, claim_C4
    [("jsonrpc", .str "2.0"), ("method", .str "initialize"), ("id", .num 1)] w0
    (Api.jrpcResult (.num 1) Api.initResult) rfl⟩

/-- C5 counterexample: TOOL_EXECUTION_FAILED has wire value -32604, which
is neither -32600 nor -32603, and that value is actually emitted: a
tools/call on generate_threat_report with non-dict arguments makes the
handler raise, and the error envelope carries code -32604. -/
theorem claim_C5_counterexample :
    Api.errCode "TOOL_EXECUTION_FAILED" = -32604 ∧
    ¬(Api.errCode "TOOL_EXECUTION_FAILED" = -32600 ∨
      Api.errCode "TOOL_EXECUTION_FAILED" = -32603) ∧
    Api.handle_mcp_request
        [("jsonrpc", .str "2.0"), ("method", .str "tools/call"),
         ("params", .obj [("name", .str "generate_threat_report"),
           ("arguments", .num 5)]), ("id", .num 7)] w0 =
      .ok (Api.jrpcError (.num 7) (-32604)
        "An internal error occurred. Error ID: 01234567") := by
  refine ⟨rfl, ?_, rfl⟩
  rintro (h | h) <;> simp [Api.errCode, Api.ERROR_CODES] at h

/-- C5 (amended): PAYLOAD_TOO_LARGE and PAYLOAD_TOO_COMPLEX map to -32600
and INVALID_PARAMETER and INTERNAL_ERROR to -32603, but
TOOL_EXECUTION_FAILED is the distinct wire value -32604, outside the
-32600 to -32603 range. -/
theorem claim_C5 :
    Api.errCode "PAYLOAD_TOO_LARGE" = -32600 ∧
    Api.errCode "PAYLOAD_TOO_COMPLEX" = -32600 ∧
    Api.errCode "INVALID_PARAMETER" = -32603 ∧
    Api.errCode "INTERNAL_ERROR" = -32603 ∧
    Api.errCode "TOOL_EXECUTION_FAILED" = -32604 :=
  ⟨rfl, rfl, rfl, rfl, rfl⟩

lemma jEqStr_eq_false {j : Json} {s : String} (h : j ≠ .str s) :
    jEqStr j s = false := by
  cases j <;> simp only [jEqStr] <;> try rfl
  rename_i t
  simp only [beq_eq_false_iff_ne, ne_eq]
  intro hts
  exact h (by rw [hts])

/-- C6: a tools/call request whose params.name is none of the eight
catalogued names yields an error envelope with the INVALID_PARAMETER code
-32603 and no result key. -/
theorem claim_C6 : ∀ (body : List (String × Json)) (w : World)
    (pkvs : List (String × Json)),
    dget body "method" .null = .str "tools/call" →
    dget body "params" (.obj []) = .obj pkvs →
    (∀ s ∈ Api.toolCatalogue, jlookup pkvs "name" .null ≠ .str s) →
    ∃ env, Api.handle_mcp_request body w = .ok env ∧
      (lookupIn env "error").bind (fun e => lookupIn e "code") =
        some (.num (Api.errCode "INVALID_PARAMETER")) ∧
      Api.errCode "INVALID_PARAMETER" = -32603 ∧
      env.hasKey "result" = false := by
  intro body w pkvs hm hp hn
  have e1 : jEqStr (dget body "method" .null) "initialize" = false := by
    rw [hm]; rfl
  have e2 : jEqStr (dget body "method" .null) "tools/list" = false := by
    rw [hm]; rfl
  have e3 : jEqStr (dget body "method" .null) "tools/call" = true := by
    rw [hm]; rfl
  have hd : ∀ s ∈ Api.toolCatalogue, jEqStr (jlookup pkvs "name" .null) s = false :=
    fun s hs => jEqStr_eq_false (hn s hs)
  have d1 := hd "get_stride_threat_framework" (by decide)
  have d2 := hd "generate_threat_mitigations" (by decide)
  have d3 := hd "calculate_threat_risk_scores" (by decide)
  have d4 := hd "create_threat_attack_trees" (by decide)
  have d5 := hd "generate_security_tests" (by decide)
  have d6 := hd "generate_threat_report" (by decide)
  have d7 := hd "validate_threat_coverage" (by decide)
  have d8 := hd "get_repository_analysis_guide" (by decide)
  refine ⟨Api.jrpcError (dget body "id" .null) (Api.errCode "INVALID_PARAMETER")
    ("Unknown tool: " ++ pyStr (jlookup pkvs "name" .null)), ?_, rfl, rfl, rfl⟩
  simp only [Api.handle_mcp_request, e1, e2, e3, hp, if_false, if_true,
    Bool.false_eq_true]
  simp only [Api.tryToolCall, Api.toolDispatch, d1, d2, d3, d4, d5, d6, d7, d8,
    Bool.false_eq_true, if_false]

/-- C6 witness: the unknown-tool error on the concrete request of the
spec's fourth scenario (tool name "bogus", id 5). -/
theorem claim_C6_witness :
    dget [("jsonrpc", Json.str "2.0"), ("method", Json.str "tools/call"),
        ("params", Json.obj [("name", Json.str "bogus"),
          ("arguments", Json.obj [])]), ("id", Json.num 5)] "method" .null =
      .str "tools/call" ∧
    ∃ env, Api.handle_mcp_request
        [("jsonrpc", Json.str "2.0"), ("method", Json.str "tools/call"),
         ("params", Json.obj [("name", Json.str "bogus"),
           ("arguments", Json.obj [])]), ("id", Json.num 5)] w0 = .ok env ∧
      (lookupIn env "error").bind (fun e => lookupIn e "code") =
        some (.num (Api.errCode "INVALID_PARAMETER")) ∧
      Api.errCode "INVALID_PARAMETER" = -32603 ∧
      env.hasKey "result" = false :=
  ⟨rfl, claim_C6
    [("jsonrpc", Json.str "2.0"), ("method", Json.str "tools/call"),
     ("params", Json.obj [("name", Json.str "bogus"),
       ("arguments", Json.obj [])]), ("id", Json.num 5)] w0
    [("name", Json.str "bogus"), ("arguments", Json.obj [])]
    rfl rfl
    (by
      intro s hs h
      cases h
      revert hs
      decide)⟩

/-- C7: every tool handler is a pure function of its argument map — its
output does not depend on the ambient World (uuid entropy, clock), so two
calls with identical arguments produce identical output. -/
theorem claim_C7 : ∀ p ∈ Api.toolHandlers, ∀ (w w' : World) (args : Json),
    p.2 w args = p.2 w' args := by
  intro p hp w w' args
  simp only [Api.toolHandlers, List.mem_cons, List.not_mem_nil, or_false] at hp
  rcases hp with rfl | rfl | rfl | rfl | rfl | rfl | rfl | rfl <;> rfl

/-- C7 witness: determinism instantiated on the first handler at two
different Worlds. -/
theorem claim_C7_witness :
    (("get_stride_threat_framework", Api.get_stride_threat_framework) ∈
      Api.toolHandlers) ∧
    Api.get_stride_threat_framework w0 (.obj []) =
      Api.get_stride_threat_framework ⟨"ffffffff-0000-0000-0000-000000000000", 9⟩
        (.obj []) :=
  ⟨by simp [Api.toolHandlers],
   claim_C7 ("get_stride_threat_framework", Api.get_stride_threat_framework)
     (by simp [Api.toolHandlers]) w0
     ⟨"ffffffff-0000-0000-0000-000000000000", 9⟩ (.obj [])⟩

/-- C8: a tools/list request returns exactly the eight fixed tool
descriptors, whose name fields are the catalogue in its fixed order; the
result is a constant, so it is identical on every call. -/
theorem claim_C8 : ∀ (body : List (String × Json)) (w : World),
    dget body "method" .null = .str "tools/list" →
    ∃ env, Api.handle_mcp_request body w = .ok env ∧
      lookupIn env "result" = some (.obj [("tools", .arr Api.toolsList)]) ∧
      Api.toolsList.length = 8 ∧
      Api.toolsList.map (fun t => lookupIn t "name") =
        Api.toolCatalogue.map (fun n => some (.str n)) := by
  intro body w hm
  have e1 : jEqStr (dget body "method" .null) "initialize" = false := by
    rw [hm]; rfl
  have e2 : jEqStr (dget body "method" .null) "tools/list" = true := by
    rw [hm]; rfl
  refine ⟨Api.jrpcResult (dget body "id" .null)
    (.obj [("tools", .arr Api.toolsList)]), ?_, rfl, rfl, rfl⟩
  simp only [Api.handle_mcp_request, e1, e2, if_false, if_true,
    Bool.false_eq_true]

/-- C8 witness: tools/list on the spec's first scenario (id 2). -/
theorem claim_C8_witness :
    dget [("jsonrpc", Json.str "2.0"), ("method", Json.str "tools/list"),
        ("id", Json.num 2)] "method" .null = .str "tools/list" ∧
    ∃ env, Api.handle_mcp_request
        [("jsonrpc", Json.str "2.0"), ("method", Json.str "tools/list"),
         ("id", Json.num 2)] w0 = .ok env ∧
      lookupIn env "result" = some (.obj [("tools", .arr Api.toolsList)]) ∧
      Api.toolsList.length = 8 ∧
      Api.toolsList.map (fun t => lookupIn t "name") =
        Api.toolCatalogue.map (fun n => some (.str n)) :=
  ⟨rfl, claim_C8
    [("jsonrpc", Json.str "2.0"), ("method", Json.str "tools/list"),
     ("id", Json.num 2)] w0 rfl⟩

/-- C9: the report scenario — tools/call of generate_threat_report on a
two-threat model — produces a markdown string placed verbatim in
result.content[0].text; that string starts with the report header and
contains "Total Threats Identified:** 2", the count being the length of
the threat_model list by construction of c9report. -/
theorem claim_C9 : ∀ w : World,
    Api.handle_mcp_request c9body w =
      .ok (Api.contentEnvelope (.num 6) (.str c9report)) ∧
    Api.generate_threat_report w c9args = .ok (.str c9report) ∧
    strContains "# STRIDE Threat Model Report" c9report ∧
    strContains (Api.reportTotalLabel ++ toString c9threats.length) c9report ∧
    Api.reportTotalLabel ++ toString c9threats.length =
      "Total Threats Identified:** 2" ∧
    c9threats.length = 2 := by
  intro w
  have hee : ∀ s : String, "" ++ s = s := fun s => by
    cases s
    rfl
  have hh : Api.reportHeader = "# STRIDE Threat Model Report" ++ "\n\n" := rfl
  refine ⟨rfl, rfl, ?_, ?_, rfl, rfl⟩
  · refine ⟨"", "\n\n" ++ Api.reportExecutiveSummary ++
      Api.reportApplicationOverview ++ Api.reportThreatAnalysis ++
      Api.reportRiskAssessment ++ Api.reportMitigations ++
      Api.reportFinalA ++ Api.reportTotalLabel ++
      toString c9threats.length ++ Api.reportFinalB, ?_⟩
    rw [hee]
    simp only [c9report, hh, String.append_assoc]
  · refine ⟨Api.reportHeader ++ Api.reportExecutiveSummary ++
      Api.reportApplicationOverview ++ Api.reportThreatAnalysis ++
      Api.reportRiskAssessment ++ Api.reportMitigations ++ Api.reportFinalA,
      Api.reportFinalB, ?_⟩
    simp only [c9report, String.append_assoc]

/-- C10: a tools/call with an empty arguments map succeeds with a result
envelope for every one of the eight catalogued tools; the handlers
substitute their built-in defaults (for example, get_stride_threat_framework
echoes app_description "" and app_type "Web Application"); and a value
outside the declared enum (an unknown analysis_stage) still succeeds, the
guide falling back to its unknown-stage guidance. -/
theorem claim_C10 : ∀ w : World,
    (Api.toolCatalogue.all
      (fun n => isSuccessEnvelope (Api.handle_mcp_request (c10body n) w))) = true ∧
    ((okLookup (Api.get_stride_threat_framework w (.obj [])) "application_context").bind
      (fun c => lookupIn c "app_description")) = some (.str "") ∧
    ((okLookup (Api.get_stride_threat_framework w (.obj [])) "application_context").bind
      (fun c => lookupIn c "app_type")) = some (.str "Web Application") ∧
    okLookup (Api.get_repository_analysis_guide w
        (.obj [("analysis_stage", .str "bogus_stage")])) "analysis_guidance" =
      some (.str Api.repoUnknownGuidance) ∧
    Api.repoUnknownGuidance =
      "Unknown analysis stage. Valid stages: \x27initial\x27, \x27deep_dive\x27, \x27validation\x27" ∧
    isSuccessEnvelope (Api.handle_mcp_request c10bodyStage w) = true := by
  intro w
  exact ⟨rfl, rfl, rfl, rfl, rfl, rfl⟩
